import Mathlib

/-!
# TyphoonSafetyAnalyzer — verification of the output-validation core

Shallow embedding of the repository's two core components:

* `TyphoonSafetyAnalyzer._parse_response` (engine/analyzer.py) — the
  response extractor that locates a brace-delimited JSON payload in raw
  model text and parses it, falling back to a degraded shape on failure;
* `OutputValidator.validate` (engine/validators/output_validator.py) — the
  schema normalizer that coerces an untrusted parsed structure into the
  AnalysisReport shape, recording container-level errors.

Python values flowing through these functions are JSON-like: `None`,
booleans, ints, floats, strings, lists and dicts.  They are embedded as
the inductive type `JValue`.  Python floats are modelled as exact
fractions (`PyNum`): every numeric comparison the code performs
(`0.0 <= c <= 1.0`, `value >= 0`) agrees with exact rational arithmetic
on all values produced by JSON parsing in the scenarios considered.  A Python `dict` is modelled as
an insertion-ordered association list; key update keeps the original
position of an existing key, exactly as CPython does.

A Python function that can raise for some inputs is embedded with result
type `Option _`; `none` models an uncaught exception (`AttributeError` /
`TypeError`).
-/

/-- Exact fraction model of a Python float: `num / den` with `den`
positive by construction.  The representation is not reduced; ordering
compares by cross-multiplication, so every comparison the validator
performs is plain integer arithmetic. -/
structure PyNum where
  num : Int
  den : Nat
deriving DecidableEq, Repr

instance : LE PyNum :=
  ⟨fun a b => a.num * (b.den : Int) ≤ b.num * (a.den : Int)⟩

instance (a b : PyNum) : Decidable (a ≤ b) :=
  inferInstanceAs (Decidable (a.num * (b.den : Int) ≤ b.num * (a.den : Int)))

instance : OfNat PyNum 0 := ⟨⟨0, 1⟩⟩

instance : OfNat PyNum 1 := ⟨⟨1, 1⟩⟩

/-- JSON-like Python value: None, bool, int, float (exact fraction
model), str, list, dict (insertion-ordered association list). -/
inductive JValue where
  | null : JValue
  | bool : Bool → JValue
  | int : Int → JValue
  | float : PyNum → JValue
  | str : String → JValue
  | arr : List JValue → JValue
  | obj : List (String × JValue) → JValue

namespace JValue

/-- First binding of key `k` in an association list (Python dict lookup:
keys are unique in a real dict, so first = only). -/
def lookupKey : List (String × JValue) → String → Option JValue
  | [], _ => none
  | (k', v) :: rest, k => if k' = k then some v else lookupKey rest k

/-- Python `d.get(k)` — `None` when the key is absent. -/
def pyGet (d : List (String × JValue)) (k : String) : JValue :=
  (lookupKey d k).getD .null

/-- Python `d.get(k, default)`. -/
def pyGetD (d : List (String × JValue)) (k : String) (dflt : JValue) : JValue :=
  (lookupKey d k).getD dflt

/-- Python `k in d`. -/
def containsKey (d : List (String × JValue)) (k : String) : Bool :=
  (lookupKey d k).isSome

/-- Python `d[k] = v`: replace the first binding of `k` in place (keeping
its position), or append a new binding when `k` is absent. -/
def setKey : List (String × JValue) → String → JValue → List (String × JValue)
  | [], k, v => [(k, v)]
  | (k', v') :: rest, k, v =>
    if k' = k then (k, v) :: rest else (k', v') :: setKey rest k v

end JValue

namespace JValue

/-- Python `isinstance(v, dict)`. -/
def isDict : JValue → Bool
  | .obj _ => true
  | _ => false

/-- Python `isinstance(v, list)`. -/
def isList : JValue → Bool
  | .arr _ => true
  | _ => false

/-- Python `isinstance(v, int)`.  CPython's `bool` is a subclass of `int`,
so `True` and `False` satisfy this check. -/
def isIntPy : JValue → Bool
  | .int _ => true
  | .bool _ => true
  | _ => false

/-- Python `isinstance(v, (int, float))` — again `bool` passes, being a
subclass of `int`. -/
def isNumberPy : JValue → Bool
  | .int _ => true
  | .float _ => true
  | .bool _ => true
  | _ => false

/-- Numeric value of a Python number (`True` = 1, `False` = 0), as an
exact fraction; 0 on non-numbers (only ever used under an `isNumberPy`
or `isIntPy` guard, mirroring Python's short-circuit `and`/`or`). -/
def numVal : JValue → PyNum
  | .int n => ⟨n, 1⟩
  | .float q => q
  | .bool b => ⟨if b then 1 else 0, 1⟩
  | _ => ⟨0, 1⟩

/-- Python `v in [s1, s2, ...]` for a list of string literals: among
JSON-like values only an equal string compares equal to a string, so the
membership test reduces to string membership. -/
def pyInStrList (v : JValue) (l : List String) : Bool :=
  match v with
  | .str s => l.contains s
  | _ => false

/-- Model of Python `str(v)` as used by the validator's f-string error
messages (`f"Invalid overall_risk_level: {value}"`).  Rendering of
containers and floats is approximate (no claim inspects these message
texts beyond their fixed literal parts); `None`, booleans, ints and
strings are rendered exactly as CPython does inside an f-string. -/
def pyStr : JValue → String
  | .null => "None"
  | .bool b => if b then "True" else "False"
  | .int n => toString n
  | .float q => toString q.num ++ "/" ++ toString q.den
  | .str s => s
  | .arr _ => "[...]"
  | .obj _ => "\x7b...\x7d"

end JValue

namespace OutputValidator

open JValue

/-- `self.required_fields` (output_validator.py, `__init__`). -/
def required_fields : List String :=
  ["overall_risk_level", "hazards_by_category", "risk_summary",
   "urgent_actions", "summary", "confidence_score"]

/-- `self.valid_risk_levels`. -/
def valid_risk_levels : List String :=
  ["low", "medium", "high", "critical", "unknown"]

/-- `self.hazard_categories`. -/
def hazard_categories : List String :=
  ["flying_objects", "structural_damage", "elevated_objects", "tree_hazards"]

/-- The five count fields checked by `_validate_risk_summary`. -/
def risk_summary_keys : List String :=
  ["critical_count", "high_count", "medium_count", "low_count", "total_hazards"]

/-- `OutputValidator._get_default_risk_summary`. -/
def get_default_risk_summary : JValue :=
  .obj [("critical_count", .int 0), ("high_count", .int 0),
        ("medium_count", .int 0), ("low_count", .int 0),
        ("total_hazards", .int 0)]

/-- `OutputValidator._get_default_value`.  `defaults.get(field)` yields
`None` for a field outside the table (never reached: only called on
members of `required_fields`). -/
def get_default_value (field : String) : JValue :=
  if field = "overall_risk_level" then .str "unknown"
  else if field = "hazards_by_category" then .obj []
  else if field = "risk_summary" then get_default_risk_summary
  else if field = "summary" then .str "Analysis incomplete"
  else if field = "urgent_actions" then .arr []
  else if field = "confidence_score" then .float 0
  else .null

/-- `OutputValidator._validate_flying_object`.  Python calls `.get` on the
entry, which raises `AttributeError` when the entry is not a dict —
modelled by `none`. -/
def validate_flying_object (obj : JValue) : Option JValue :=
  match obj with
  | .obj o => some (.obj
      [("item", pyGetD o "item" (.str "Unknown object")),
       ("description", pyGetD o "description" (.str "No description")),
       ("movement_risk",
         if pyInStrList (pyGet o "movement_risk") ["high", "medium", "low"]
         then pyGetD o "movement_risk" (.str "unknown") else .str "unknown"),
       ("impact_severity",
         if pyInStrList (pyGet o "impact_severity") valid_risk_levels
         then pyGetD o "impact_severity" (.str "unknown") else .str "unknown"),
       ("overall_risk",
         if pyInStrList (pyGet o "overall_risk") valid_risk_levels
         then pyGetD o "overall_risk" (.str "unknown") else .str "unknown"),
       ("location", pyGetD o "location" (.str "Location not specified")),
       ("recommendation", pyGetD o "recommendation" (.str "No recommendation"))])
  | _ => none

/-- `OutputValidator._validate_structural_damage`. -/
def validate_structural_damage (obj : JValue) : Option JValue :=
  match obj with
  | .obj o => some (.obj
      [("item", pyGetD o "item" (.str "Unknown structure")),
       ("description", pyGetD o "description" (.str "No description")),
       ("risk_level",
         if pyInStrList (pyGet o "risk_level") valid_risk_levels
         then pyGetD o "risk_level" (.str "unknown") else .str "unknown"),
       ("location", pyGetD o "location" (.str "Location not specified")),
       ("recommendation", pyGetD o "recommendation" (.str "No recommendation"))])
  | _ => none

/-- `OutputValidator._validate_elevated_object`. -/
def validate_elevated_object (obj : JValue) : Option JValue :=
  match obj with
  | .obj o => some (.obj
      [("item", pyGetD o "item" (.str "Unknown object")),
       ("description", pyGetD o "description" (.str "No description")),
       ("fall_risk",
         if pyInStrList (pyGet o "fall_risk") ["high", "medium", "low"]
         then pyGetD o "fall_risk" (.str "unknown") else .str "unknown"),
       ("impact_severity",
         if pyInStrList (pyGet o "impact_severity") valid_risk_levels
         then pyGetD o "impact_severity" (.str "unknown") else .str "unknown"),
       ("overall_risk",
         if pyInStrList (pyGet o "overall_risk") valid_risk_levels
         then pyGetD o "overall_risk" (.str "unknown") else .str "unknown"),
       ("location", pyGetD o "location" (.str "Location not specified")),
       ("recommendation", pyGetD o "recommendation" (.str "No recommendation"))])
  | _ => none

/-- `OutputValidator._validate_tree_hazard`. -/
def validate_tree_hazard (obj : JValue) : Option JValue :=
  match obj with
  | .obj o => some (.obj
      [("description", pyGetD o "description" (.str "No description")),
       ("risk_level",
         if pyInStrList (pyGet o "risk_level") valid_risk_levels
         then pyGetD o "risk_level" (.str "unknown") else .str "unknown"),
       ("location", pyGetD o "location" (.str "Location not specified")),
       ("recommendation", pyGetD o "recommendation" (.str "No recommendation"))])
  | _ => none

/-- The list comprehension `[f(item) for item in category_data]` over a
fallible element function: `none` as soon as one element raises. -/
def mapOption (f : JValue → Option JValue) : List JValue → Option (List JValue)
  | [] => some []
  | x :: xs =>
    match f x, mapOption f xs with
    | some y, some ys => some (y :: ys)
    | _, _ => none

/-- One iteration of the `for category in self.hazard_categories` loop in
`_validate_hazard_categories`: fetch the category's value (default `[]`),
coerce non-lists to `[]`, and validate each entry with the category's
entry validator (the list comprehension; `none` when any entry raises). -/
def validate_category (f : JValue → Option JValue)
    (hazards : List (String × JValue)) (cat : String) : Option JValue :=
  let category_data := pyGetD hazards cat (.arr [])
  let items := match category_data with
    | .arr l => l
    | _ => []
  (mapOption f items).map .arr

/-- `OutputValidator._validate_hazard_categories`: builds a fresh dict
with exactly the four category keys, in the loop's fixed order; the
exception from a non-dict entry in any category propagates (`none`). -/
def validate_hazard_categories (hazards : List (String × JValue)) :
    Option JValue :=
  match validate_category validate_flying_object hazards "flying_objects",
        validate_category validate_structural_damage hazards "structural_damage",
        validate_category validate_elevated_object hazards "elevated_objects",
        validate_category validate_tree_hazard hazards "tree_hazards" with
  | some fo, some sd, some eo, some th =>
    some (.obj [("flying_objects", fo), ("structural_damage", sd),
                ("elevated_objects", eo), ("tree_hazards", th)])
  | _, _, _, _ => none

/-- `OutputValidator._validate_risk_summary`: builds a fresh dict with
exactly the five count keys; a value is kept iff
`isinstance(value, int) and value >= 0` (booleans pass the `isinstance`
check, being Python ints), else reset to `0`. -/
def validate_risk_summary (summary : List (String × JValue)) : JValue :=
  .obj (risk_summary_keys.map fun k =>
    let value := pyGetD summary k (.int 0)
    (k, if isIntPy value && decide (0 ≤ numVal value) then value else .int 0))

/-- One iteration of the `for field in self.required_fields` loop of
`validate`: add a default (and an error message) when `field` is absent. -/
def req_step (acc : List (String × JValue) × List String) (field : String) :
    List (String × JValue) × List String :=
  if containsKey acc.1 field then acc
  else (setKey acc.1 field (get_default_value field),
        acc.2 ++ ["Missing required field: " ++ field])

/-- The full required-field loop of `validate`, in list order.  Returns
the updated dict and the errors this block appended. -/
def check_required_fields (v : List (String × JValue)) :
    List (String × JValue) × List String :=
  required_fields.foldl req_step (v, [])

/-- The `overall_risk_level` block of `validate`. -/
def check_overall_risk_level (v : List (String × JValue)) :
    List (String × JValue) × List String :=
  if pyInStrList (pyGet v "overall_risk_level") valid_risk_levels then (v, [])
  else (setKey v "overall_risk_level" (.str "unknown"),
        ["Invalid overall_risk_level: " ++ pyStr (pyGet v "overall_risk_level")])

/-- The `hazards_by_category` block of `validate`: a non-dict value is
replaced by the empty dict (with an error) — note the four category keys
are produced only on the dict branch.  `none` models the exception
propagating out of `_validate_hazard_categories` when a hazard entry is
not a dict. -/
def check_hazards_by_category (v : List (String × JValue)) :
    Option (List (String × JValue) × List String) :=
  match pyGet v "hazards_by_category" with
  | .obj h =>
    (validate_hazard_categories h).map
      fun hv => (setKey v "hazards_by_category" hv, [])
  | _ => some (setKey v "hazards_by_category" (.obj []),
               ["hazards_by_category must be a dictionary"])

/-- The `risk_summary` block of `validate`. -/
def check_risk_summary (v : List (String × JValue)) :
    List (String × JValue) × List String :=
  match pyGet v "risk_summary" with
  | .obj s => (setKey v "risk_summary" (validate_risk_summary s), [])
  | _ => (setKey v "risk_summary" get_default_risk_summary,
          ["risk_summary must be a dictionary"])

/-- The `confidence_score` block of `validate`:
`not isinstance(confidence, (int, float)) or not (0.0 <= confidence <= 1.0)`. -/
def check_confidence_score (v : List (String × JValue)) :
    List (String × JValue) × List String :=
  let confidence := pyGetD v "confidence_score" (.float 0)
  if !(isNumberPy confidence && decide (0 ≤ numVal confidence)
        && decide (numVal confidence ≤ 1)) then
    (setKey v "confidence_score" (.float 0),
     ["Invalid confidence_score: " ++ pyStr confidence])
  else (v, [])

/-- The `urgent_actions` block of `validate`. -/
def check_urgent_actions (v : List (String × JValue)) :
    List (String × JValue) × List String :=
  match pyGet v "urgent_actions" with
  | .arr _ => (v, [])
  | _ => (setKey v "urgent_actions" (.arr []), ["urgent_actions must be a list"])

/-- The final `validated['validation'] = {...}` assignment of `validate`. -/
def attach_validation (v : List (String × JValue)) (errors : List String) :
    List (String × JValue) :=
  setKey v "validation"
    (.obj [("errors", .arr (errors.map .str)),
           ("is_valid", .bool errors.isEmpty)])

/-- `OutputValidator.validate`.  The blocks run in the source's order,
each on the dict produced by the previous one, and the error list is the
concatenation of the blocks' contributions in that order (Python appends
to a single list).  A non-dict argument raises in Python (`None` has no
`.copy`, a list rejects string indexing/`.get`) — modelled by `none`, as
is the exception escaping from `_validate_hazard_categories`. -/
def validate (analysis_result : JValue) : Option JValue :=
  match analysis_result with
  | .obj input =>
    let s1 := check_required_fields input
    let s2 := check_overall_risk_level s1.1
    (check_hazards_by_category s2.1).map fun s3 =>
      let s4 := check_risk_summary s3.1
      let s5 := check_confidence_score s4.1
      let s6 := check_urgent_actions s5.1
      .obj (attach_validation s6.1
        (s1.2 ++ s2.2 ++ s3.2 ++ s4.2 ++ s5.2 ++ s6.2))
  | _ => none

/-- Field access on a `JValue` known to be a dict. -/
def jGet (v : JValue) (k : String) : Option JValue :=
  match v with
  | .obj l => lookupKey l k
  | _ => none

/-!
Error components expressed directly over the *input* dict (not over the
evolving intermediate dicts).  These are the vehicles for the
error-ordering claims: `validate`'s error list provably equals their
concatenation in the fixed check order. -/

/-- Errors of the required-field loop, as a function of the input. -/
def errs_missing (l : List (String × JValue)) : List String :=
  (required_fields.filter (fun f => !containsKey l f)).map
    (fun f => "Missing required field: " ++ f)

/-- Error of the `overall_risk_level` check, as a function of the input
(an absent field was already defaulted to `"unknown"`, which is legal). -/
def errs_overall_risk_level (l : List (String × JValue)) : List String :=
  if pyInStrList (pyGetD l "overall_risk_level" (.str "unknown"))
       valid_risk_levels then []
  else ["Invalid overall_risk_level: "
          ++ pyStr (pyGetD l "overall_risk_level" (.str "unknown"))]

/-- Error of the `hazards_by_category` container check (an absent field
was already defaulted to `{}`, a dict). -/
def errs_hazards_by_category (l : List (String × JValue)) : List String :=
  match pyGetD l "hazards_by_category" (.obj []) with
  | .obj _ => []
  | _ => ["hazards_by_category must be a dictionary"]

/-- Error of the `risk_summary` container check. -/
def errs_risk_summary (l : List (String × JValue)) : List String :=
  match pyGetD l "risk_summary" get_default_risk_summary with
  | .obj _ => []
  | _ => ["risk_summary must be a dictionary"]

/-- Error of the `confidence_score` check. -/
def errs_confidence_score (l : List (String × JValue)) : List String :=
  let confidence := pyGetD l "confidence_score" (.float 0)
  if !(isNumberPy confidence && decide (0 ≤ numVal confidence)
        && decide (numVal confidence ≤ 1)) then
    ["Invalid confidence_score: " ++ pyStr confidence]
  else []

/-- Error of the `urgent_actions` check. -/
def errs_urgent_actions (l : List (String × JValue)) : List String :=
  match pyGetD l "urgent_actions" (.arr []) with
  | .arr _ => []
  | _ => ["urgent_actions must be a list"]

/-- The full error list of one `validate` run, as a function of the
input: the six blocks' contributions concatenated in the fixed check
order of the source (required-field loop in `required_fields` order,
then `overall_risk_level`, `hazards_by_category`, `risk_summary`,
`confidence_score`, `urgent_actions`). -/
def validate_errors (l : List (String × JValue)) : List String :=
  errs_missing l ++ errs_overall_risk_level l ++ errs_hazards_by_category l
    ++ errs_risk_summary l ++ errs_confidence_score l ++ errs_urgent_actions l

end OutputValidator

namespace Analyzer

open JValue

/-!
## Response extractor (`TyphoonSafetyAnalyzer._parse_response`)

The extractor calls `json.loads` on the substring spanning the first `{`
and the last `}` of the raw text.  `json.loads` is modelled by a
recursive-descent parser over the character list, covering the JSON
grammar the scenarios exercise (objects, arrays, strings with standard
escapes, integer and decimal/exponent numbers, `true`/`false`/`null`,
JSON whitespace).  As in CPython, a duplicate object key keeps the first
key's position with the last value, and input left over after the value
is an error.
-/

/-- JSON whitespace skipping (space, tab, newline, carriage return). -/
def skipWs : List Char → List Char
  | c :: rest =>
    if c = ' ' ∨ c = '\t' ∨ c = '\n' ∨ c = '\r' then skipWs rest else c :: rest
  | [] => []

/-- Hex digit value. -/
def hexVal (c : Char) : Option Nat :=
  if '0' ≤ c ∧ c ≤ '9' then some (c.toNat - '0'.toNat)
  else if 'a' ≤ c ∧ c ≤ 'f' then some (c.toNat - 'a'.toNat + 10)
  else if 'A' ≤ c ∧ c ≤ 'F' then some (c.toNat - 'A'.toNat + 10)
  else none

/-- Parse the body of a JSON string (the opening quote already consumed),
returning the string and the rest of the input. -/
def parseStringBody : List Char → List Char → Option (String × List Char)
  | _, [] => none
  | acc, c :: rest =>
    if c = '"' then some (String.mk acc.reverse, rest)
    else if c = '\\' then
      match rest with
      | [] => none
      | e :: rest' =>
        if e = '"' then parseStringBody ('"' :: acc) rest'
        else if e = '\\' then parseStringBody ('\\' :: acc) rest'
        else if e = '/' then parseStringBody ('/' :: acc) rest'
        else if e = 'n' then parseStringBody ('\n' :: acc) rest'
        else if e = 't' then parseStringBody ('\t' :: acc) rest'
        else if e = 'r' then parseStringBody ('\r' :: acc) rest'
        else if e = 'b' then parseStringBody (Char.ofNat 8 :: acc) rest'
        else if e = 'f' then parseStringBody (Char.ofNat 12 :: acc) rest'
        else if e = 'u' then
          match rest' with
          | h1 :: h2 :: h3 :: h4 :: rest'' =>
            match hexVal h1, hexVal h2, hexVal h3, hexVal h4 with
            | some a, some b, some hc, some d =>
              parseStringBody
                (Char.ofNat (((a * 16 + b) * 16 + hc) * 16 + d) :: acc) rest''
            | _, _, _, _ => none
          | _ => none
        else none
    else parseStringBody (c :: acc) rest

/-- Decimal digit test. -/
def isDigit (c : Char) : Bool := '0' ≤ c ∧ c ≤ '9'

/-- Take a maximal run of decimal digits. -/
def takeDigits : List Char → List Char × List Char
  | c :: rest =>
    if isDigit c then
      let (ds, r) := takeDigits rest
      (c :: ds, r)
    else ([], c :: rest)
  | [] => ([], [])

/-- Natural value of a digit run. -/
def digitsVal (ds : List Char) : Nat :=
  ds.foldl (fun acc c => acc * 10 + (c.toNat - '0'.toNat)) 0

/-- Parse a JSON number.  Yields a Python `int` when the literal has no
fraction and no exponent, a `float` (exact fraction model) otherwise. -/
def parseNumber (cs : List Char) : Option (JValue × List Char) :=
  let (neg, cs₁) := match cs with
    | '-' :: rest => (true, rest)
    | _ => (false, cs)
  let (intDs, cs₂) := takeDigits cs₁
  if intDs.isEmpty then none
  else
    let (fracDs, cs₃) := match cs₂ with
      | '.' :: rest =>
        let (ds, r) := takeDigits rest
        (ds, if ds.isEmpty then cs₂ else r)
      | _ => ([], cs₂)
    if (match cs₂ with | '.' :: _ => fracDs.isEmpty | _ => false) then none
    else
      let (hasExp, expNeg, expDs, cs₄) := match cs₃ with
        | 'e' :: '-' :: rest => let (ds, r) := takeDigits rest; (true, true, ds, r)
        | 'e' :: '+' :: rest => let (ds, r) := takeDigits rest; (true, false, ds, r)
        | 'e' :: rest => let (ds, r) := takeDigits rest; (true, false, ds, r)
        | 'E' :: '-' :: rest => let (ds, r) := takeDigits rest; (true, true, ds, r)
        | 'E' :: '+' :: rest => let (ds, r) := takeDigits rest; (true, false, ds, r)
        | 'E' :: rest => let (ds, r) := takeDigits rest; (true, false, ds, r)
        | _ => (false, false, [], cs₃)
      if hasExp ∧ expDs.isEmpty then none
      else
        let mantissa : PyNum :=
          ⟨(digitsVal intDs : Int) * ((10 : Int) ^ fracDs.length)
              + (digitsVal fracDs : Int),
           (10 : Nat) ^ fracDs.length⟩
        let scaled : PyNum :=
          if hasExp then
            if expNeg then ⟨mantissa.num, mantissa.den * 10 ^ digitsVal expDs⟩
            else ⟨mantissa.num * (10 : Int) ^ digitsVal expDs, mantissa.den⟩
          else mantissa
        let signed : PyNum := if neg then ⟨-scaled.num, scaled.den⟩ else scaled
        if fracDs.isEmpty ∧ ¬hasExp then
          some (.int (if neg then -(digitsVal intDs : Int) else (digitsVal intDs : Int)), cs₄)
        else
          some (.float signed, cs₄)

mutual

/-- Parse one JSON value (fuel-indexed recursive descent). -/
def parseValue : Nat → List Char → Option (JValue × List Char)
  | 0, _ => none
  | fuel + 1, cs =>
    match skipWs cs with
    | [] => none
    | c :: rest =>
      if c = '\x7b' then
        match skipWs rest with
        | '\x7d' :: rest' => some (.obj [], rest')
        | cs' => parseObjItems fuel cs' []
      else if c = '[' then
        match skipWs rest with
        | ']' :: rest' => some (.arr [], rest')
        | cs' => parseArrItems fuel cs' []
      else if c = '"' then
        (parseStringBody [] rest).map fun (s, r) => (.str s, r)
      else if c = 't' then
        match rest with
        | 'r' :: 'u' :: 'e' :: rest' => some (.bool true, rest')
        | _ => none
      else if c = 'f' then
        match rest with
        | 'a' :: 'l' :: 's' :: 'e' :: rest' => some (.bool false, rest')
        | _ => none
      else if c = 'n' then
        match rest with
        | 'u' :: 'l' :: 'l' :: rest' => some (.null, rest')
        | _ => none
      else if c = '-' ∨ isDigit c then
        parseNumber (c :: rest)
      else none

/-- Parse the members of a JSON object after at least one member is
known to follow (accumulator in insertion order; duplicate keys update
in place, as a Python dict does). -/
def parseObjItems : Nat → List Char → List (String × JValue) →
    Option (JValue × List Char)
  | 0, _, _ => none
  | fuel + 1, cs, acc =>
    match skipWs cs with
    | '"' :: rest =>
      match parseStringBody [] rest with
      | none => none
      | some (k, r₁) =>
        match skipWs r₁ with
        | ':' :: r₂ =>
          match parseValue fuel r₂ with
          | none => none
          | some (v, r₃) =>
            let acc' := setKey acc k v
            match skipWs r₃ with
            | ',' :: r₄ => parseObjItems fuel r₄ acc'
            | '\x7d' :: r₄ => some (.obj acc', r₄)
            | _ => none
        | _ => none
    | _ => none

/-- Parse the items of a JSON array after at least one item is known to
follow. -/
def parseArrItems : Nat → List Char → List JValue →
    Option (JValue × List Char)
  | 0, _, _ => none
  | fuel + 1, cs, acc =>
    match parseValue fuel cs with
    | none => none
    | some (v, r₁) =>
      match skipWs r₁ with
      | ',' :: r₂ => parseArrItems fuel r₂ (acc ++ [v])
      | ']' :: r₂ => some (.arr (acc ++ [v]), r₂)
      | _ => none

end

/-- Model of Python `json.loads`: parse one JSON value and require only
whitespace to remain. -/
def json_loads (s : String) : Option JValue :=
  match parseValue (2 * s.length + 4) s.data with
  | some (v, rest) => if skipWs rest = [] then some v else none
  | none => none

/-- Python `text.find(c)` — index of the first occurrence, `-1` if absent. -/
def pyFind (cs : List Char) (c : Char) : Int :=
  match cs.findIdx? (· = c) with
  | some i => (i : Int)
  | none => -1

/-- Python `text.rfind(c)` — index of the last occurrence, `-1` if absent. -/
def pyRFind (cs : List Char) (c : Char) : Int :=
  match cs.reverse.findIdx? (· = c) with
  | some i => ((cs.length - 1 - i : Nat) : Int)
  | none => -1

/-- Python slice `text[a:b]` for the non-negative indices arising in
`_parse_response` (an empty string when `b ≤ a`). -/
def pySlice (cs : List Char) (a b : Int) : List Char :=
  (cs.drop a.toNat).take (b.toNat - a.toNat)

/-- The substring `response_text[start_idx:end_idx]` that
`_parse_response` hands to `json.loads`. -/
def extract_span (response_text : String) : String :=
  let cs := response_text.data
  String.mk (pySlice cs (pyFind cs '\x7b') (pyRFind cs '\x7d' + 1))

/-- The fallback structure of `_parse_response`, parameterized by the
`summary` value (`raw text` on the no-brace branch, `"Failed to parse
response"` on the `JSONDecodeError` branch). -/
def fallback (summary : String) (response_text : String) : JValue :=
  .obj [("overall_risk_level", .str "unknown"),
        ("hazards_detected", .arr []),
        ("summary", .str summary),
        ("urgent_actions", .arr []),
        ("confidence_score", .float 0),
        ("raw_response", .str response_text)]

/-- `TyphoonSafetyAnalyzer._parse_response`.  `start_idx`/`end_idx` are
computed exactly as in the source (`find`, `rfind + 1`); note
`end_idx != -1` can never fail, since `rfind` is at least `-1`. -/
def parse_response (response_text : String) : JValue :=
  let cs := response_text.data
  let start_idx := pyFind cs '\x7b'
  let end_idx := pyRFind cs '\x7d' + 1
  if start_idx ≠ -1 ∧ end_idx ≠ -1 then
    match json_loads (String.mk (pySlice cs start_idx end_idx)) with
    | some v => v
    | none => fallback "Failed to parse response" response_text
  else
    fallback response_text response_text

/-- The raw model text of spec §8, Scenario D (braces written as
character escapes). -/
def scenario_d_text : String :=
  "prefix \x7b\"overall_risk_level\":\"high\",\"hazards_by_category\":\x7b\x7d,\"risk_summary\":\x7b\"critical_count\":2,\"high_count\":-1,\"total_hazards\":2\x7d,\"urgent_actions\":[\"evacuate\"],\"summary\":\"bad weather\",\"confidence_score\":0.9\x7d suffix"

end Analyzer

namespace Report

open JValue OutputValidator

/-!
## Schema predicates (spec §3)

These predicates state, over the embedding, what the spec calls a
*conformant AnalysisReport*.  They follow the schema of spec §3 with the
value classes read as the Python code checks them: "non-negative
integer" is `isinstance(v, int) and v >= 0` (so Python booleans, being
ints, qualify), and `confidence_score` is numeric-in-[0,1] (the code
accepts ints and bools there, not only floats).  Free-form text fields
(`summary`, `item`, `description`, `location`, `recommendation`,
elements of `urgent_actions`) are not constrained to strings because
the validator itself never checks them — it passes such values through.
Nested mappings are required to carry exactly their fixed keys, in the
order the validator emits them (a mapping's key order is an artifact of
the association-list embedding; the validator always produces this
canonical order).
-/

def isStr : JValue → Bool
  | .str _ => true
  | _ => false

/-- Fixed key list of a hazard entry, per category (spec §3 shapes, in
the order `_validate_<category>` builds them). -/
def entry_shape_keys (cat : String) : List String :=
  if cat = "flying_objects" then
    ["item", "description", "movement_risk", "impact_severity",
     "overall_risk", "location", "recommendation"]
  else if cat = "structural_damage" then
    ["item", "description", "risk_level", "location", "recommendation"]
  else if cat = "elevated_objects" then
    ["item", "description", "fall_risk", "impact_severity",
     "overall_risk", "location", "recommendation"]
  else if cat = "tree_hazards" then
    ["description", "risk_level", "location", "recommendation"]
  else []

/-- Enumeration constraint of one entry field: `movement_risk` /
`fall_risk` lie in the narrow enumeration, the RiskLevel-valued fields
in the full one, free-form fields are unconstrained. -/
def field_enum_ok (field : String) (v : JValue) : Bool :=
  if field = "movement_risk" ∨ field = "fall_risk" then
    pyInStrList v ["high", "medium", "low", "unknown"]
  else if field = "impact_severity" ∨ field = "overall_risk"
      ∨ field = "risk_level" then
    pyInStrList v valid_risk_levels
  else true

/-- A hazard entry in exactly its category's shape. -/
def entry_ok (cat : String) (e : JValue) : Bool :=
  match e with
  | .obj l => decide (l.map Prod.fst = entry_shape_keys cat)
      && l.all (fun p => field_enum_ok p.1 p.2)
  | _ => false

/-- A category value: a sequence of conformant entries. -/
def category_list_ok (cat : String) (v : JValue) : Bool :=
  match v with
  | .arr es => es.all (entry_ok cat)
  | _ => false

/-- A conformant `risk_summary`: exactly the five count keys, each a
non-negative (Python) integer. -/
def risk_summary_ok : JValue → Bool
  | .obj l => decide (l.map Prod.fst = risk_summary_keys)
      && l.all (fun p => isIntPy p.2 && decide (0 ≤ numVal p.2))
  | _ => false

/-- A conformant `validation` record: string errors, `is_valid` true iff
no error. -/
def validation_ok : JValue → Bool
  | .obj [("errors", .arr es), ("is_valid", .bool b)] =>
      es.all isStr && (b == es.isEmpty)
  | _ => false

/-- `confidence_score` as the code checks it: numeric and in `[0, 1]`. -/
def confidence_ok (v : JValue) : Bool :=
  isNumberPy v && decide (0 ≤ numVal v) && decide (numVal v ≤ 1)

/-- Schema-conformant AnalysisReport (spec §3): all required fields
present, `overall_risk_level` in its enumeration, `hazards_by_category`
a mapping with exactly the four category keys holding conformant entry
sequences, a conformant `risk_summary`, a sequence `urgent_actions`, a
valid `confidence_score` and a conformant `validation` record.  Extra
top-level keys are allowed (the normalizer passes them through). -/
def conformantReportL (l : List (String × JValue)) : Bool :=
  containsKey l "summary" &&
  pyInStrList (pyGet l "overall_risk_level") valid_risk_levels &&
  (match lookupKey l "hazards_by_category" with
   | some (.obj h) => decide (h.map Prod.fst = hazard_categories)
       && h.all (fun p => category_list_ok p.1 p.2)
   | _ => false) &&
  (match lookupKey l "risk_summary" with
   | some rs => risk_summary_ok rs
   | none => false) &&
  (match lookupKey l "urgent_actions" with
   | some (.arr _) => true
   | _ => false) &&
  confidence_ok (pyGet l "confidence_score") &&
  (match lookupKey l "validation" with
   | some vv => validation_ok vv
   | none => false)

def conformantReport : JValue → Bool
  | .obj l => conformantReportL l
  | _ => false

/-- The list of entries the category loop iterates over for `cat`
(the `hazards.get(category, [])` value, non-lists coerced to `[]`). -/
def category_items (h : List (String × JValue)) (cat : String) : List JValue :=
  match pyGetD h cat (.arr []) with
  | .arr l => l
  | _ => []

/-- Every hazard entry the category loop touches is a dict — exactly the
condition under which no `_validate_<category>` call raises. -/
def entries_are_dicts (h : List (String × JValue)) : Bool :=
  hazard_categories.all fun cat => (category_items h cat).all isDict

/-- Inputs on which `validate` both terminates normally and produces a
schema-conformant report: `hazards_by_category`, when present, must be a
mapping (a non-mapping is replaced by `{}` *without* the four category
keys) whose category lists contain only mappings (a non-mapping entry
raises `AttributeError`). -/
def hbc_input_ok (l : List (String × JValue)) : Prop :=
  match lookupKey l "hazards_by_category" with
  | some (.obj h) => entries_are_dicts h = true
  | some _ => False
  | none => True

/-- Inputs whose hazard entries (if any) are mappings; a non-mapping
`hazards_by_category` is allowed here (it never reaches the entry
validators). -/
def hbc_entries_ok (l : List (String × JValue)) : Prop :=
  match lookupKey l "hazards_by_category" with
  | some (.obj h) => entries_are_dicts h = true
  | _ => True

/-- Enum closure of one output hazard entry (claim C8's field list). -/
def entry_enum_closed (cat : String) (e : JValue) : Bool :=
  match e with
  | .obj l =>
    if cat = "flying_objects" then
      pyInStrList (pyGet l "movement_risk") ["high", "medium", "low", "unknown"]
        && pyInStrList (pyGet l "impact_severity") valid_risk_levels
        && pyInStrList (pyGet l "overall_risk") valid_risk_levels
    else if cat = "structural_damage" then
      pyInStrList (pyGet l "risk_level") valid_risk_levels
    else if cat = "elevated_objects" then
      pyInStrList (pyGet l "fall_risk") ["high", "medium", "low", "unknown"]
        && pyInStrList (pyGet l "impact_severity") valid_risk_levels
        && pyInStrList (pyGet l "overall_risk") valid_risk_levels
    else if cat = "tree_hazards" then
      pyInStrList (pyGet l "risk_level") valid_risk_levels
    else true
  | _ => false

/-- Enum closure of a category value. -/
def category_enum_closed (cat : String) (v : JValue) : Bool :=
  match v with
  | .arr es => es.all (entry_enum_closed cat)
  | _ => false

/-- Enum closure of a whole report, list level. -/
def enumClosedReportL (l : List (String × JValue)) : Bool :=
  pyInStrList (pyGet l "overall_risk_level") valid_risk_levels &&
  (match lookupKey l "hazards_by_category" with
   | some (.obj h) => h.all fun p => category_enum_closed p.1 p.2
   | _ => false)

/-- Enum closure of a whole report: `overall_risk_level` in its
enumeration and every hazard entry's risk-valued fields in theirs. -/
def enumClosedReport : JValue → Bool
  | .obj l => enumClosedReportL l
  | _ => false

end Report

namespace Report

open JValue OutputValidator

/-- Keys of a mapping value, in order. -/
def objKeys : JValue → Option (List String)
  | .obj l => some (l.map Prod.fst)
  | _ => none

end Report

namespace Examples

open JValue OutputValidator

/-- The report `validate` produces for the empty mapping (spec §8,
Scenario A). -/
def scenario_a_output : JValue :=
  .obj [("overall_risk_level", .str "unknown"),
        ("hazards_by_category",
          .obj [("flying_objects", .arr []), ("structural_damage", .arr []),
                ("elevated_objects", .arr []), ("tree_hazards", .arr [])]),
        ("risk_summary",
          .obj [("critical_count", .int 0), ("high_count", .int 0),
                ("medium_count", .int 0), ("low_count", .int 0),
                ("total_hazards", .int 0)]),
        ("urgent_actions", .arr []),
        ("summary", .str "Analysis incomplete"),
        ("confidence_score", .float 0),
        ("validation",
          .obj [("errors",
                  .arr [.str "Missing required field: overall_risk_level",
                        .str "Missing required field: hazards_by_category",
                        .str "Missing required field: risk_summary",
                        .str "Missing required field: urgent_actions",
                        .str "Missing required field: summary",
                        .str "Missing required field: confidence_score"]),
                ("is_valid", .bool false)])]

/-- The structure `json.loads` yields for the payload embedded in the
Scenario D raw text. -/
def scenario_d_parsed : JValue :=
  .obj [("overall_risk_level", .str "high"),
        ("hazards_by_category", .obj []),
        ("risk_summary",
          .obj [("critical_count", .int 2), ("high_count", .int (-1)),
                ("total_hazards", .int 2)]),
        ("urgent_actions", .arr [.str "evacuate"]),
        ("summary", .str "bad weather"),
        ("confidence_score", .float ⟨9, 10⟩)]

end Examples

namespace JValue

/-! ## Association-list (Python dict) lemmas -/

theorem lookupKey_setKey_self : ∀ (l : List (String × JValue)) (k : String)
    (v : JValue), lookupKey (setKey l k v) k = some v
  | [], k, v => by simp [setKey, lookupKey]
  | (k', w) :: rest, k, v => by
    by_cases h : k' = k
    · simp [setKey, h, lookupKey]
    · simp [setKey, h, lookupKey, lookupKey_setKey_self rest k v]

theorem lookupKey_setKey_ne : ∀ (l : List (String × JValue)) (k' : String)
    (v : JValue) (k : String), k' ≠ k →
    lookupKey (setKey l k' v) k = lookupKey l k
  | [], k', v, k, h => by simp [setKey, lookupKey, h]
  | (k₀, w) :: rest, k', v, k, h => by
    by_cases h₀ : k₀ = k'
    · simp [setKey, h₀, lookupKey, h]
    · simp only [setKey, h₀, if_false, lookupKey]
      by_cases h₁ : k₀ = k
      · simp [h₁]
      · simp [h₁, lookupKey_setKey_ne rest k' v k h]

theorem setKey_lookup_self : ∀ (l : List (String × JValue)) (k : String)
    (v : JValue), lookupKey l k = some v → setKey l k v = l
  | [], k, v => by simp [lookupKey]
  | (k', w) :: rest, k, v => by
    by_cases h : k' = k
    · intro hl
      simp [lookupKey, h] at hl
      simp [setKey, h, hl]
    · intro hl
      simp [lookupKey, h] at hl
      simp [setKey, h, setKey_lookup_self rest k v hl]

theorem containsKey_eq_isSome (l : List (String × JValue)) (k : String) :
    containsKey l k = (lookupKey l k).isSome := rfl

end JValue

namespace OutputValidator

open JValue

/-! ## Lemmas about the required-field loop -/

theorem req_fold_lookup_not_mem : ∀ (fields : List String)
    (v : List (String × JValue)) (es : List String) (k : String),
    k ∉ fields →
    lookupKey (fields.foldl req_step (v, es)).1 k = lookupKey v k := by
  intro fields
  induction fields with
  | nil => intro v es k _; rfl
  | cons f fs ih =>
    intro v es k hk
    have hkf : f ≠ k := fun h => hk (h ▸ List.mem_cons_self f fs)
    have hkfs : k ∉ fs := fun h => hk (List.mem_cons_of_mem f h)
    simp only [List.foldl_cons]
    by_cases hc : containsKey v f
    · rw [show req_step (v, es) f = (v, es) by simp [req_step, hc]]
      exact ih v es k hkfs
    · rw [show req_step (v, es) f
          = (setKey v f (get_default_value f),
             es ++ ["Missing required field: " ++ f]) by simp [req_step, hc]]
      rw [ih _ _ k hkfs, lookupKey_setKey_ne v f _ k hkf]

theorem req_fold_lookup_mem : ∀ (fields : List String), fields.Nodup →
    ∀ (v : List (String × JValue)) (es : List String) (k : String),
    k ∈ fields →
    lookupKey (fields.foldl req_step (v, es)).1 k
      = some (pyGetD v k (get_default_value k)) := by
  intro fields
  induction fields with
  | nil => intro _ v es k hk; exact absurd hk (List.not_mem_nil k)
  | cons f fs ih =>
    intro hnd v es k hk
    have hf : f ∉ fs := (List.nodup_cons.mp hnd).1
    have hnd' : fs.Nodup := (List.nodup_cons.mp hnd).2
    simp only [List.foldl_cons]
    by_cases hkf : k = f
    · subst hkf
      by_cases hc : containsKey v k
      · rw [show req_step (v, es) k = (v, es) by simp [req_step, hc]]
        rw [req_fold_lookup_not_mem fs v es k hf]
        cases hx : lookupKey v k with
        | none => rw [containsKey_eq_isSome, hx] at hc; simp at hc
        | some x => simp [pyGetD, hx]
      · rw [show req_step (v, es) k
            = (setKey v k (get_default_value k),
               es ++ ["Missing required field: " ++ k]) by simp [req_step, hc]]
        rw [req_fold_lookup_not_mem fs _ _ k hf, lookupKey_setKey_self]
        cases hx : lookupKey v k with
        | none => simp [pyGetD, hx]
        | some x => rw [containsKey_eq_isSome, hx] at hc; simp at hc
    · have hkfs : k ∈ fs := (List.mem_cons.mp hk).resolve_left hkf
      by_cases hc : containsKey v f
      · rw [show req_step (v, es) f = (v, es) by simp [req_step, hc]]
        exact ih hnd' v es k hkfs
      · rw [show req_step (v, es) f
            = (setKey v f (get_default_value f),
               es ++ ["Missing required field: " ++ f]) by simp [req_step, hc]]
        rw [ih hnd' _ _ k hkfs]
        have : lookupKey (setKey v f (get_default_value f)) k = lookupKey v k :=
          lookupKey_setKey_ne v f _ k (fun h => hkf h.symm)
        simp [pyGetD, this]

theorem req_fold_errors : ∀ (fields : List String), fields.Nodup →
    ∀ (v : List (String × JValue)) (es : List String),
    (fields.foldl req_step (v, es)).2
      = es ++ (fields.filter (fun f => !containsKey v f)).map
          (fun f => "Missing required field: " ++ f) := by
  intro fields
  induction fields with
  | nil => intro _ v es; simp
  | cons f fs ih =>
    intro hnd v es
    have hf : f ∉ fs := (List.nodup_cons.mp hnd).1
    have hnd' : fs.Nodup := (List.nodup_cons.mp hnd).2
    simp only [List.foldl_cons]
    by_cases hc : containsKey v f
    · rw [show req_step (v, es) f = (v, es) by simp [req_step, hc]]
      rw [ih hnd' v es]
      simp [List.filter_cons, hc]
    · rw [show req_step (v, es) f
          = (setKey v f (get_default_value f),
             es ++ ["Missing required field: " ++ f]) by simp [req_step, hc]]
      rw [ih hnd' _ _]
      have hfilter :
          fs.filter (fun g => !containsKey (setKey v f (get_default_value f)) g)
            = fs.filter (fun g => !containsKey v g) := by
        apply List.filter_congr
        intro g hg
        have hgf : f ≠ g := fun h => hf (h ▸ hg)
        rw [containsKey_eq_isSome, containsKey_eq_isSome,
            lookupKey_setKey_ne v f _ g hgf]
      rw [hfilter]
      simp [List.filter_cons, hc]

theorem req_fold_all_present : ∀ (fields : List String)
    (v : List (String × JValue)) (es : List String),
    (∀ f ∈ fields, containsKey v f = true) →
    fields.foldl req_step (v, es) = (v, es) := by
  intro fields
  induction fields with
  | nil => intro v es _; rfl
  | cons f fs ih =>
    intro v es hall
    simp only [List.foldl_cons]
    rw [show req_step (v, es) f = (v, es) by
          simp [req_step, hall f (List.mem_cons_self f fs)]]
    exact ih v es (fun g hg => hall g (List.mem_cons_of_mem f hg))

theorem required_fields_nodup : required_fields.Nodup := by decide

/-! ## Lemmas about the individual check blocks -/

theorem check_orl_lookup_ne (v : List (String × JValue)) (k : String)
    (h : k ≠ "overall_risk_level") :
    lookupKey (check_overall_risk_level v).1 k = lookupKey v k := by
  unfold check_overall_risk_level
  by_cases hc : pyInStrList (pyGet v "overall_risk_level") valid_risk_levels
  · simp [hc]
  · simp [hc, lookupKey_setKey_ne v "overall_risk_level" _ k (fun hh => h hh.symm)]

theorem check_orl_lookup_self (v : List (String × JValue)) :
    lookupKey (check_overall_risk_level v).1 "overall_risk_level"
      = if pyInStrList (pyGet v "overall_risk_level") valid_risk_levels
        then lookupKey v "overall_risk_level" else some (.str "unknown") := by
  unfold check_overall_risk_level
  by_cases hc : pyInStrList (pyGet v "overall_risk_level") valid_risk_levels
  · simp [hc]
  · simp [hc, lookupKey_setKey_self]

theorem check_orl_errors (v : List (String × JValue)) :
    (check_overall_risk_level v).2
      = if pyInStrList (pyGet v "overall_risk_level") valid_risk_levels then []
        else ["Invalid overall_risk_level: " ++ pyStr (pyGet v "overall_risk_level")] := by
  unfold check_overall_risk_level
  by_cases hc : pyInStrList (pyGet v "overall_risk_level") valid_risk_levels
  · simp [hc]
  · simp [hc]

theorem check_hbc_obj (v : List (String × JValue)) (h : List (String × JValue))
    (hm : pyGet v "hazards_by_category" = .obj h) :
    check_hazards_by_category v
      = (validate_hazard_categories h).map
          (fun hv => (setKey v "hazards_by_category" hv, [])) := by
  unfold check_hazards_by_category
  rw [hm]

theorem check_hbc_not_obj (v : List (String × JValue))
    (hm : isDict (pyGet v "hazards_by_category") = false) :
    check_hazards_by_category v
      = some (setKey v "hazards_by_category" (.obj []),
              ["hazards_by_category must be a dictionary"]) := by
  unfold check_hazards_by_category
  cases hv : pyGet v "hazards_by_category" <;> simp_all [isDict]

theorem isDict_iff (v : JValue) :
    isDict v = true ↔ ∃ h, v = .obj h := by
  cases v <;> simp [isDict]

theorem check_hbc_lookup_ne (v : List (String × JValue))
    (s3 : List (String × JValue) × List String)
    (hs : check_hazards_by_category v = some s3) (k : String)
    (h : k ≠ "hazards_by_category") :
    lookupKey s3.1 k = lookupKey v k := by
  by_cases hd : isDict (pyGet v "hazards_by_category")
  · obtain ⟨hh, hv⟩ := (isDict_iff _).mp hd
    rw [check_hbc_obj v hh hv] at hs
    cases hvc : validate_hazard_categories hh with
    | none => rw [hvc] at hs; simp at hs
    | some w =>
      rw [hvc] at hs
      injection hs with hs
      rw [← hs]
      exact lookupKey_setKey_ne v "hazards_by_category" w k (fun hh => h hh.symm)
  · rw [check_hbc_not_obj v (by simpa using hd)] at hs
    injection hs with hs
    rw [← hs]
    exact lookupKey_setKey_ne v "hazards_by_category" _ k (fun hh => h hh.symm)

theorem check_rs_obj (v : List (String × JValue)) (s : List (String × JValue))
    (hm : pyGet v "risk_summary" = .obj s) :
    check_risk_summary v
      = (setKey v "risk_summary" (validate_risk_summary s), []) := by
  unfold check_risk_summary
  rw [hm]

theorem check_rs_not_obj (v : List (String × JValue))
    (hm : isDict (pyGet v "risk_summary") = false) :
    check_risk_summary v
      = (setKey v "risk_summary" get_default_risk_summary,
         ["risk_summary must be a dictionary"]) := by
  unfold check_risk_summary
  cases hv : pyGet v "risk_summary" <;> simp_all [isDict]

theorem check_rs_lookup_ne (v : List (String × JValue)) (k : String)
    (h : k ≠ "risk_summary") :
    lookupKey (check_risk_summary v).1 k = lookupKey v k := by
  by_cases hd : isDict (pyGet v "risk_summary")
  · obtain ⟨s, hv⟩ := (isDict_iff _).mp hd
    rw [check_rs_obj v s hv]
    exact lookupKey_setKey_ne v "risk_summary" _ k (fun hh => h hh.symm)
  · rw [check_rs_not_obj v (by simpa using hd)]
    exact lookupKey_setKey_ne v "risk_summary" _ k (fun hh => h hh.symm)

theorem check_cs_valid (v : List (String × JValue))
    (h : (isNumberPy (pyGetD v "confidence_score" (.float 0))
          && decide (0 ≤ numVal (pyGetD v "confidence_score" (.float 0)))
          && decide (numVal (pyGetD v "confidence_score" (.float 0)) ≤ 1)) = true) :
    check_confidence_score v = (v, []) := by
  unfold check_confidence_score
  simp [h]

theorem check_cs_invalid (v : List (String × JValue))
    (h : (isNumberPy (pyGetD v "confidence_score" (.float 0))
          && decide (0 ≤ numVal (pyGetD v "confidence_score" (.float 0)))
          && decide (numVal (pyGetD v "confidence_score" (.float 0)) ≤ 1)) = false) :
    check_confidence_score v
      = (setKey v "confidence_score" (.float 0),
         ["Invalid confidence_score: " ++ pyStr (pyGetD v "confidence_score" (.float 0))]) := by
  unfold check_confidence_score
  simp [h]

theorem check_cs_lookup_ne (v : List (String × JValue)) (k : String)
    (h : k ≠ "confidence_score") :
    lookupKey (check_confidence_score v).1 k = lookupKey v k := by
  unfold check_confidence_score
  by_cases hc : (isNumberPy (pyGetD v "confidence_score" (.float 0))
      && decide (0 ≤ numVal (pyGetD v "confidence_score" (.float 0)))
      && decide (numVal (pyGetD v "confidence_score" (.float 0)) ≤ 1))
  · simp [hc]
  · simp only [hc, Bool.not_false, if_true]
    exact lookupKey_setKey_ne v "confidence_score" _ k (fun hh => h hh.symm)

theorem check_ua_arr (v : List (String × JValue)) (a : List JValue)
    (hm : pyGet v "urgent_actions" = .arr a) :
    check_urgent_actions v = (v, []) := by
  unfold check_urgent_actions
  rw [hm]

theorem check_ua_not_arr (v : List (String × JValue))
    (hm : isList (pyGet v "urgent_actions") = false) :
    check_urgent_actions v
      = (setKey v "urgent_actions" (.arr []), ["urgent_actions must be a list"]) := by
  unfold check_urgent_actions
  cases hv : pyGet v "urgent_actions" <;> simp_all [isList]

theorem check_ua_lookup_ne (v : List (String × JValue)) (k : String)
    (h : k ≠ "urgent_actions") :
    lookupKey (check_urgent_actions v).1 k = lookupKey v k := by
  unfold check_urgent_actions
  cases hv : pyGet v "urgent_actions" with
  | arr a => rfl
  | _ =>
    exact lookupKey_setKey_ne v "urgent_actions" _ k (fun hh => h hh.symm)

theorem attach_lookup_self (v : List (String × JValue)) (errors : List String) :
    lookupKey (attach_validation v errors) "validation"
      = some (.obj [("errors", .arr (errors.map .str)),
                    ("is_valid", .bool errors.isEmpty)]) :=
  lookupKey_setKey_self v "validation" _

theorem attach_lookup_ne (v : List (String × JValue)) (errors : List String)
    (k : String) (h : k ≠ "validation") :
    lookupKey (attach_validation v errors) k = lookupKey v k :=
  lookupKey_setKey_ne v "validation" _ k (fun hh => h hh.symm)

end OutputValidator

namespace OutputValidator

open JValue

/-! ## Threading lemmas: from `validate (.obj l) = some r` to the output's fields -/

theorem pyGet_of_lookup {v : List (String × JValue)} {k : String} {x : JValue}
    (h : lookupKey v k = some x) : pyGet v k = x := by
  simp [pyGet, h]

theorem pyGetD_of_lookup {v : List (String × JValue)} {k : String} {x : JValue}
    (d : JValue) (h : lookupKey v k = some x) : pyGetD v k d = x := by
  simp [pyGetD, h]

theorem crf_lookup_mem (l : List (String × JValue)) (k : String)
    (hk : k ∈ required_fields) :
    lookupKey (check_required_fields l).1 k
      = some (pyGetD l k (get_default_value k)) := by
  unfold check_required_fields
  exact req_fold_lookup_mem required_fields required_fields_nodup l [] k hk

theorem crf_lookup_not_mem (l : List (String × JValue)) (k : String)
    (hk : k ∉ required_fields) :
    lookupKey (check_required_fields l).1 k = lookupKey l k := by
  unfold check_required_fields
  exact req_fold_lookup_not_mem required_fields l [] k hk

theorem crf_errors (l : List (String × JValue)) :
    (check_required_fields l).2 = errs_missing l := by
  unfold check_required_fields errs_missing
  rw [req_fold_errors required_fields required_fields_nodup l []]
  simp

theorem validate_obj_eq (l : List (String × JValue)) :
    validate (.obj l)
      = (check_hazards_by_category
            (check_overall_risk_level (check_required_fields l).1).1).map
          (fun s3 => .obj (attach_validation
            (check_urgent_actions
              (check_confidence_score (check_risk_summary s3.1).1).1).1
            ((check_required_fields l).2
              ++ (check_overall_risk_level (check_required_fields l).1).2
              ++ s3.2 ++ (check_risk_summary s3.1).2
              ++ (check_confidence_score (check_risk_summary s3.1).1).2
              ++ (check_urgent_actions
                   (check_confidence_score (check_risk_summary s3.1).1).1).2))) :=
  rfl

theorem validate_obj_some_elim (l : List (String × JValue)) (r : JValue)
    (h : validate (.obj l) = some r) :
    ∃ s3, check_hazards_by_category
            (check_overall_risk_level (check_required_fields l).1).1 = some s3 ∧
      r = .obj (attach_validation
        (check_urgent_actions
          (check_confidence_score (check_risk_summary s3.1).1).1).1
        ((check_required_fields l).2
          ++ (check_overall_risk_level (check_required_fields l).1).2
          ++ s3.2 ++ (check_risk_summary s3.1).2
          ++ (check_confidence_score (check_risk_summary s3.1).1).2
          ++ (check_urgent_actions
               (check_confidence_score (check_risk_summary s3.1).1).1).2)) := by
  rw [validate_obj_eq] at h
  cases hc : check_hazards_by_category
      (check_overall_risk_level (check_required_fields l).1).1 with
  | none => rw [hc] at h; exact absurd h (by simp)
  | some s3 =>
    rw [hc] at h
    simp only [Option.map_some'] at h
    injection h with h
    exact ⟨s3, rfl, h.symm⟩

theorem stage_tail_lookup_ne (v : List (String × JValue)) (k : String)
    (h4 : k ≠ "risk_summary") (h5 : k ≠ "confidence_score")
    (h6 : k ≠ "urgent_actions") :
    lookupKey (check_urgent_actions
      (check_confidence_score (check_risk_summary v).1).1).1 k
      = lookupKey v k := by
  rw [check_ua_lookup_ne _ _ h6, check_cs_lookup_ne _ _ h5,
      check_rs_lookup_ne _ _ h4]

theorem validate_lookup_summary (l : List (String × JValue)) (r : JValue)
    (h : validate (.obj l) = some r) :
    jGet r "summary" = some (pyGetD l "summary" (.str "Analysis incomplete")) := by
  obtain ⟨s3, hs, rfl⟩ := validate_obj_some_elim l r h
  show lookupKey (attach_validation _ _) "summary" = _
  rw [attach_lookup_ne _ _ _ (by decide),
      stage_tail_lookup_ne _ _ (by decide) (by decide) (by decide),
      check_hbc_lookup_ne _ _ hs _ (by decide),
      check_orl_lookup_ne _ _ (by decide),
      crf_lookup_mem l "summary" (by decide)]
  rfl

theorem validate_lookup_orl (l : List (String × JValue)) (r : JValue)
    (h : validate (.obj l) = some r) :
    jGet r "overall_risk_level"
      = some (if pyInStrList (pyGetD l "overall_risk_level" (.str "unknown"))
                 valid_risk_levels
              then pyGetD l "overall_risk_level" (.str "unknown")
              else .str "unknown") := by
  obtain ⟨s3, hs, rfl⟩ := validate_obj_some_elim l r h
  show lookupKey (attach_validation _ _) "overall_risk_level" = _
  rw [attach_lookup_ne _ _ _ (by decide),
      stage_tail_lookup_ne _ _ (by decide) (by decide) (by decide),
      check_hbc_lookup_ne _ _ hs _ (by decide),
      check_orl_lookup_self]
  have hx : lookupKey (check_required_fields l).1 "overall_risk_level"
      = some (pyGetD l "overall_risk_level" (.str "unknown")) := by
    rw [crf_lookup_mem l "overall_risk_level" (by decide)]; rfl
  rw [pyGet_of_lookup hx, hx]
  by_cases hc : pyInStrList (pyGetD l "overall_risk_level" (.str "unknown"))
      valid_risk_levels <;> simp [hc]

theorem validate_lookup_hbc_obj (l : List (String × JValue)) (r : JValue)
    (hh : List (String × JValue)) (r' : JValue)
    (h : validate (.obj l) = some r)
    (hm : pyGetD l "hazards_by_category" (.obj []) = .obj hh)
    (hvc : validate_hazard_categories hh = some r') :
    jGet r "hazards_by_category" = some r' := by
  obtain ⟨s3, hs, rfl⟩ := validate_obj_some_elim l r h
  have hx : lookupKey (check_overall_risk_level (check_required_fields l).1).1
      "hazards_by_category" = some (.obj hh) := by
    rw [check_orl_lookup_ne _ _ (by decide),
        crf_lookup_mem l "hazards_by_category" (by decide)]
    rw [show get_default_value "hazards_by_category" = JValue.obj [] from rfl, hm]
  rw [check_hbc_obj _ hh (pyGet_of_lookup hx), hvc] at hs
  injection hs with hs
  show lookupKey (attach_validation _ _) "hazards_by_category" = _
  rw [attach_lookup_ne _ _ _ (by decide),
      stage_tail_lookup_ne _ _ (by decide) (by decide) (by decide),
      ← hs]
  exact lookupKey_setKey_self _ _ _

theorem validate_lookup_hbc_not_obj (l : List (String × JValue)) (r : JValue)
    (h : validate (.obj l) = some r)
    (hm : isDict (pyGetD l "hazards_by_category" (.obj [])) = false) :
    jGet r "hazards_by_category" = some (.obj []) := by
  obtain ⟨s3, hs, rfl⟩ := validate_obj_some_elim l r h
  have hx : lookupKey (check_overall_risk_level (check_required_fields l).1).1
      "hazards_by_category"
      = some (pyGetD l "hazards_by_category" (.obj [])) := by
    rw [check_orl_lookup_ne _ _ (by decide),
        crf_lookup_mem l "hazards_by_category" (by decide)]
    rfl
  rw [check_hbc_not_obj _ (by rw [pyGet_of_lookup hx]; exact hm)] at hs
  injection hs with hs
  show lookupKey (attach_validation _ _) "hazards_by_category" = _
  rw [attach_lookup_ne _ _ _ (by decide),
      stage_tail_lookup_ne _ _ (by decide) (by decide) (by decide),
      ← hs]
  exact lookupKey_setKey_self _ _ _

end OutputValidator

namespace OutputValidator

open JValue

theorem validate_lookup_rs_obj (l : List (String × JValue)) (r : JValue)
    (s : List (String × JValue))
    (h : validate (.obj l) = some r)
    (hm : pyGetD l "risk_summary" get_default_risk_summary = .obj s) :
    jGet r "risk_summary" = some (validate_risk_summary s) := by
  obtain ⟨s3, hs, rfl⟩ := validate_obj_some_elim l r h
  have hx : lookupKey (check_risk_summary s3.1).1 "risk_summary"
      = some (validate_risk_summary s) := by
    have hlk : lookupKey s3.1 "risk_summary"
        = some (pyGetD l "risk_summary" get_default_risk_summary) := by
      rw [check_hbc_lookup_ne _ _ hs _ (by decide),
          check_orl_lookup_ne _ _ (by decide),
          crf_lookup_mem l "risk_summary" (by decide)]
      rfl
    rw [hm] at hlk
    rw [check_rs_obj _ s (pyGet_of_lookup hlk)]
    exact lookupKey_setKey_self _ _ _
  show lookupKey (attach_validation _ _) "risk_summary" = _
  rw [attach_lookup_ne _ _ _ (by decide),
      check_ua_lookup_ne _ _ (by decide),
      check_cs_lookup_ne _ _ (by decide), hx]

theorem validate_lookup_rs_not_obj (l : List (String × JValue)) (r : JValue)
    (h : validate (.obj l) = some r)
    (hm : isDict (pyGetD l "risk_summary" get_default_risk_summary) = false) :
    jGet r "risk_summary" = some get_default_risk_summary := by
  obtain ⟨s3, hs, rfl⟩ := validate_obj_some_elim l r h
  have hx : lookupKey (check_risk_summary s3.1).1 "risk_summary"
      = some get_default_risk_summary := by
    have hlk : lookupKey s3.1 "risk_summary"
        = some (pyGetD l "risk_summary" get_default_risk_summary) := by
      rw [check_hbc_lookup_ne _ _ hs _ (by decide),
          check_orl_lookup_ne _ _ (by decide),
          crf_lookup_mem l "risk_summary" (by decide)]
      rfl
    rw [check_rs_not_obj _ (by rw [pyGet_of_lookup hlk]; exact hm)]
    exact lookupKey_setKey_self _ _ _
  show lookupKey (attach_validation _ _) "risk_summary" = _
  rw [attach_lookup_ne _ _ _ (by decide),
      check_ua_lookup_ne _ _ (by decide),
      check_cs_lookup_ne _ _ (by decide), hx]

theorem validate_lookup_cs (l : List (String × JValue)) (r : JValue)
    (h : validate (.obj l) = some r) :
    jGet r "confidence_score"
      = some (if isNumberPy (pyGetD l "confidence_score" (.float 0))
                && decide (0 ≤ numVal (pyGetD l "confidence_score" (.float 0)))
                && decide (numVal (pyGetD l "confidence_score" (.float 0)) ≤ 1)
              then pyGetD l "confidence_score" (.float 0) else .float 0) := by
  obtain ⟨s3, hs, rfl⟩ := validate_obj_some_elim l r h
  have hlk : lookupKey (check_risk_summary s3.1).1 "confidence_score"
      = some (pyGetD l "confidence_score" (.float 0)) := by
    rw [check_rs_lookup_ne _ _ (by decide),
        check_hbc_lookup_ne _ _ hs _ (by decide),
        check_orl_lookup_ne _ _ (by decide),
        crf_lookup_mem l "confidence_score" (by decide)]
    rfl
  have hgd : pyGetD (check_risk_summary s3.1).1 "confidence_score" (.float 0)
      = pyGetD l "confidence_score" (.float 0) := pyGetD_of_lookup _ hlk
  show lookupKey (attach_validation _ _) "confidence_score" = _
  rw [attach_lookup_ne _ _ _ (by decide),
      check_ua_lookup_ne _ _ (by decide)]
  by_cases hc : (isNumberPy (pyGetD l "confidence_score" (.float 0))
      && decide (0 ≤ numVal (pyGetD l "confidence_score" (.float 0)))
      && decide (numVal (pyGetD l "confidence_score" (.float 0)) ≤ 1))
  · rw [check_cs_valid _ (by rw [hgd]; exact hc), hlk, if_pos hc]
  · rw [check_cs_invalid _ (by rw [hgd]; exact (Bool.not_eq_true _).mp hc),
        lookupKey_setKey_self, if_neg hc]

theorem validate_lookup_ua (l : List (String × JValue)) (r : JValue)
    (h : validate (.obj l) = some r) :
    jGet r "urgent_actions"
      = some (if isList (pyGetD l "urgent_actions" (.arr []))
              then pyGetD l "urgent_actions" (.arr []) else .arr []) := by
  obtain ⟨s3, hs, rfl⟩ := validate_obj_some_elim l r h
  have hlk : lookupKey (check_confidence_score (check_risk_summary s3.1).1).1
      "urgent_actions" = some (pyGetD l "urgent_actions" (.arr [])) := by
    rw [check_cs_lookup_ne _ _ (by decide),
        check_rs_lookup_ne _ _ (by decide),
        check_hbc_lookup_ne _ _ hs _ (by decide),
        check_orl_lookup_ne _ _ (by decide),
        crf_lookup_mem l "urgent_actions" (by decide)]
    rfl
  show lookupKey (attach_validation _ _) "urgent_actions" = _
  rw [attach_lookup_ne _ _ _ (by decide)]
  cases hv : pyGetD l "urgent_actions" (.arr []) with
  | arr a =>
    have hlk2 : lookupKey (check_confidence_score (check_risk_summary s3.1).1).1
        "urgent_actions" = some (.arr a) := by rw [hlk, hv]
    rw [check_ua_arr _ a (pyGet_of_lookup hlk2)]
    exact hlk2.trans (by simp [isList])
  | _ =>
    have hlk2 := hlk.trans (congrArg some hv)
    rw [check_ua_not_arr _ (by rw [pyGet_of_lookup hlk2]; rfl)]
    exact (lookupKey_setKey_self _ _ _).trans (by simp [isList])

theorem validate_lookup_frame (l : List (String × JValue)) (r : JValue)
    (k : String) (h : validate (.obj l) = some r)
    (h1 : k ∉ required_fields) (h2 : k ≠ "validation") :
    jGet r k = lookupKey l k := by
  obtain ⟨s3, hs, rfl⟩ := validate_obj_some_elim l r h
  show lookupKey (attach_validation _ _) k = _
  rw [attach_lookup_ne _ _ _ h2,
      check_ua_lookup_ne _ _ (fun he => h1 (by rw [he]; decide)),
      check_cs_lookup_ne _ _ (fun he => h1 (by rw [he]; decide)),
      check_rs_lookup_ne _ _ (fun he => h1 (by rw [he]; decide)),
      check_hbc_lookup_ne _ _ hs _ (fun he => h1 (by rw [he]; decide)),
      check_orl_lookup_ne _ _ (fun he => h1 (by rw [he]; decide)),
      crf_lookup_not_mem l k h1]

end OutputValidator

namespace OutputValidator

open JValue

set_option maxHeartbeats 3200000 in
theorem validate_lookup_validation (l : List (String × JValue)) (r : JValue)
    (h : validate (.obj l) = some r) :
    jGet r "validation"
      = some (.obj [("errors", .arr ((validate_errors l).map .str)),
                    ("is_valid", .bool (validate_errors l).isEmpty)]) := by
  obtain ⟨s3, hs, rfl⟩ := validate_obj_some_elim l r h
  have e1 : (check_required_fields l).2 = errs_missing l := crf_errors l
  have horl : lookupKey (check_required_fields l).1 "overall_risk_level"
      = some (pyGetD l "overall_risk_level" (.str "unknown")) := by
    rw [crf_lookup_mem l _ (by decide)]; rfl
  have e2 : (check_overall_risk_level (check_required_fields l).1).2
      = errs_overall_risk_level l := by
    rw [check_orl_errors, pyGet_of_lookup horl]; rfl
  have hhbc : lookupKey (check_overall_risk_level (check_required_fields l).1).1
      "hazards_by_category" = some (pyGetD l "hazards_by_category" (.obj [])) := by
    rw [check_orl_lookup_ne _ _ (by decide), crf_lookup_mem l _ (by decide)]; rfl
  have e3 : s3.2 = errs_hazards_by_category l := by
    have hs' := hs
    cases hv : pyGetD l "hazards_by_category" (.obj []) with
    | obj hh =>
      rw [check_hbc_obj _ hh (pyGet_of_lookup (hhbc.trans (congrArg some hv)))] at hs'
      cases hvc : validate_hazard_categories hh with
      | none => rw [hvc] at hs'; simp at hs'
      | some w =>
        rw [hvc] at hs'
        injection hs' with hs'
        rw [← hs']
        simp [errs_hazards_by_category, hv]
    | _ =>
      rw [check_hbc_not_obj _
            (by rw [pyGet_of_lookup (hhbc.trans (congrArg some hv))]; rfl)] at hs'
      injection hs' with hs'
      rw [← hs']
      simp [errs_hazards_by_category, hv]
  have hrs : lookupKey s3.1 "risk_summary"
      = some (pyGetD l "risk_summary" get_default_risk_summary) := by
    rw [check_hbc_lookup_ne _ _ hs _ (by decide),
        check_orl_lookup_ne _ _ (by decide), crf_lookup_mem l _ (by decide)]
    rfl
  have e4 : (check_risk_summary s3.1).2 = errs_risk_summary l := by
    cases hv : pyGetD l "risk_summary" get_default_risk_summary with
    | obj ss =>
      rw [check_rs_obj _ ss (pyGet_of_lookup (hrs.trans (congrArg some hv)))]
      simp [errs_risk_summary, hv]
    | _ =>
      rw [check_rs_not_obj _
            (by rw [pyGet_of_lookup (hrs.trans (congrArg some hv))]; rfl)]
      simp [errs_risk_summary, hv]
  have hcs : lookupKey (check_risk_summary s3.1).1 "confidence_score"
      = some (pyGetD l "confidence_score" (.float 0)) := by
    rw [check_rs_lookup_ne _ _ (by decide),
        check_hbc_lookup_ne _ _ hs _ (by decide),
        check_orl_lookup_ne _ _ (by decide), crf_lookup_mem l _ (by decide)]
    rfl
  have e5 : (check_confidence_score (check_risk_summary s3.1).1).2
      = errs_confidence_score l := by
    cases hb : (isNumberPy (pyGetD l "confidence_score" (.float 0))
        && decide (0 ≤ numVal (pyGetD l "confidence_score" (.float 0)))
        && decide (numVal (pyGetD l "confidence_score" (.float 0)) ≤ 1)) with
    | true =>
      rw [check_cs_valid _ (by rw [pyGetD_of_lookup _ hcs]; exact hb)]
      simp [errs_confidence_score, hb]
    | false =>
      rw [check_cs_invalid _ (by rw [pyGetD_of_lookup _ hcs]; exact hb)]
      rw [pyGetD_of_lookup _ hcs]
      simp [errs_confidence_score, hb]
  have hua : lookupKey (check_confidence_score (check_risk_summary s3.1).1).1
      "urgent_actions" = some (pyGetD l "urgent_actions" (.arr [])) := by
    rw [check_cs_lookup_ne _ _ (by decide), check_rs_lookup_ne _ _ (by decide),
        check_hbc_lookup_ne _ _ hs _ (by decide),
        check_orl_lookup_ne _ _ (by decide), crf_lookup_mem l _ (by decide)]
    rfl
  have e6 : (check_urgent_actions
      (check_confidence_score (check_risk_summary s3.1).1).1).2
      = errs_urgent_actions l := by
    cases hv : pyGetD l "urgent_actions" (.arr []) with
    | arr a =>
      rw [check_ua_arr _ a (pyGet_of_lookup (hua.trans (congrArg some hv)))]
      simp [errs_urgent_actions, hv]
    | _ =>
      rw [check_ua_not_arr _
            (by rw [pyGet_of_lookup (hua.trans (congrArg some hv))]; rfl)]
      simp [errs_urgent_actions, hv]
  show lookupKey (attach_validation _ _) "validation" = _
  rw [attach_lookup_self, e1, e2, e3, e4, e5, e6]
  rfl

end OutputValidator

namespace OutputValidator

open JValue Report

/-! ## Lemmas about the hazard-category machinery -/

theorem mapOption_some_of_forall (f : JValue → Option JValue) :
    ∀ items : List JValue, (∀ x ∈ items, (f x).isSome = true) →
    ∃ ys, mapOption f items = some ys := by
  intro items
  induction items with
  | nil => intro _; exact ⟨[], rfl⟩
  | cons x xs ih =>
    intro hall
    obtain ⟨y, hy⟩ := Option.isSome_iff_exists.mp
      (hall x (List.mem_cons_self x xs))
    obtain ⟨ys, hys⟩ := ih (fun z hz => hall z (List.mem_cons_of_mem x hz))
    exact ⟨y :: ys, by simp [mapOption, hy, hys]⟩

theorem mapOption_mem (f : JValue → Option JValue) :
    ∀ (items : List JValue) (ys : List JValue),
    mapOption f items = some ys → ∀ y ∈ ys, ∃ x ∈ items, f x = some y := by
  intro items
  induction items with
  | nil =>
    intro ys h y hy
    simp [mapOption] at h
    subst h
    exact absurd hy (List.not_mem_nil y)
  | cons x xs ih =>
    intro ys h y hy
    unfold mapOption at h
    cases hfx : f x with
    | none => rw [hfx] at h; simp at h
    | some y0 =>
      rw [hfx] at h
      cases hm : mapOption f xs with
      | none => rw [hm] at h; simp at h
      | some ys' =>
        rw [hm] at h
        injection h with h
        subst h
        rcases List.mem_cons.mp hy with hy0 | hy'
        · exact ⟨x, List.mem_cons_self x xs, hy0 ▸ hfx⟩
        · obtain ⟨z, hz, hfz⟩ := ih ys' hm y hy'
          exact ⟨z, List.mem_cons_of_mem x hz, hfz⟩

theorem validate_category_eq (f : JValue → Option JValue)
    (h : List (String × JValue)) (cat : String) :
    validate_category f h cat = (mapOption f (category_items h cat)).map .arr := by
  unfold validate_category category_items
  cases pyGetD h cat (.arr []) <;> rfl

theorem validate_category_isSome (f : JValue → Option JValue)
    (hf : ∀ e, isDict e = true → (f e).isSome = true)
    (h : List (String × JValue)) (cat : String)
    (hd : (category_items h cat).all isDict = true) :
    ∃ a, validate_category f h cat = some (.arr a) := by
  rw [validate_category_eq]
  obtain ⟨ys, hys⟩ := mapOption_some_of_forall f (category_items h cat)
    (fun x hx => hf x (by
      have := List.all_eq_true.mp hd x hx
      simpa using this))
  exact ⟨ys, by rw [hys]; rfl⟩

theorem vhc_some_elim (h : List (String × JValue)) (hv : JValue)
    (hs : validate_hazard_categories h = some hv) :
    ∃ fo sd eo th,
      validate_category validate_flying_object h "flying_objects" = some fo ∧
      validate_category validate_structural_damage h "structural_damage" = some sd ∧
      validate_category validate_elevated_object h "elevated_objects" = some eo ∧
      validate_category validate_tree_hazard h "tree_hazards" = some th ∧
      hv = .obj [("flying_objects", fo), ("structural_damage", sd),
                 ("elevated_objects", eo), ("tree_hazards", th)] := by
  unfold validate_hazard_categories at hs
  cases h1 : validate_category validate_flying_object h "flying_objects" with
  | none => rw [h1] at hs; simp at hs
  | some fo =>
    rw [h1] at hs
    cases h2 : validate_category validate_structural_damage h "structural_damage" with
    | none => rw [h2] at hs; simp at hs
    | some sd =>
      rw [h2] at hs
      cases h3 : validate_category validate_elevated_object h "elevated_objects" with
      | none => rw [h3] at hs; simp at hs
      | some eo =>
        rw [h3] at hs
        cases h4 : validate_category validate_tree_hazard h "tree_hazards" with
        | none => rw [h4] at hs; simp at hs
        | some th =>
          rw [h4] at hs
          injection hs with hs
          exact ⟨fo, sd, eo, th, rfl, rfl, rfl, rfl, hs.symm⟩

theorem validate_flying_object_isSome (e : JValue) (hd : isDict e = true) :
    (validate_flying_object e).isSome = true := by
  obtain ⟨o, rfl⟩ := (isDict_iff e).mp hd
  rfl

theorem validate_structural_damage_isSome (e : JValue) (hd : isDict e = true) :
    (validate_structural_damage e).isSome = true := by
  obtain ⟨o, rfl⟩ := (isDict_iff e).mp hd
  rfl

theorem validate_elevated_object_isSome (e : JValue) (hd : isDict e = true) :
    (validate_elevated_object e).isSome = true := by
  obtain ⟨o, rfl⟩ := (isDict_iff e).mp hd
  rfl

theorem validate_tree_hazard_isSome (e : JValue) (hd : isDict e = true) :
    (validate_tree_hazard e).isSome = true := by
  obtain ⟨o, rfl⟩ := (isDict_iff e).mp hd
  rfl

theorem vhc_isSome (h : List (String × JValue))
    (hd : entries_are_dicts h = true) :
    ∃ hv, validate_hazard_categories h = some hv := by
  have hall := List.all_eq_true.mp hd
  obtain ⟨a1, h1⟩ := validate_category_isSome validate_flying_object
    validate_flying_object_isSome h "flying_objects"
    (by simpa using hall "flying_objects" (by decide))
  obtain ⟨a2, h2⟩ := validate_category_isSome validate_structural_damage
    validate_structural_damage_isSome h "structural_damage"
    (by simpa using hall "structural_damage" (by decide))
  obtain ⟨a3, h3⟩ := validate_category_isSome validate_elevated_object
    validate_elevated_object_isSome h "elevated_objects"
    (by simpa using hall "elevated_objects" (by decide))
  obtain ⟨a4, h4⟩ := validate_category_isSome validate_tree_hazard
    validate_tree_hazard_isSome h "tree_hazards"
    (by simpa using hall "tree_hazards" (by decide))
  refine ⟨.obj [("flying_objects", .arr a1), ("structural_damage", .arr a2),
                ("elevated_objects", .arr a3), ("tree_hazards", .arr a4)], ?_⟩
  unfold validate_hazard_categories
  rw [h1, h2, h3, h4]

end OutputValidator

namespace OutputValidator

open JValue Report

/-- The coerced value of a narrow-enumeration field (`movement_risk` /
`fall_risk`) always lies in `high | medium | low | unknown`. -/
theorem coerce3_mem (o : List (String × JValue)) (k : String) :
    pyInStrList (if pyInStrList (pyGet o k) ["high", "medium", "low"]
                 then pyGetD o k (.str "unknown") else .str "unknown")
      ["high", "medium", "low", "unknown"] = true := by
  by_cases h : pyInStrList (pyGet o k) ["high", "medium", "low"]
  · rw [if_pos h]
    cases hx : lookupKey o k with
    | none =>
      rw [show pyGet o k = .null by simp [pyGet, hx]] at h
      simp [pyInStrList] at h
    | some x =>
      rw [show pyGet o k = x by simp [pyGet, hx]] at h
      rw [show pyGetD o k (.str "unknown") = x by simp [pyGetD, hx]]
      cases x <;> simp [pyInStrList] at h ⊢
      rcases h with h | h | h <;> simp [h]
  · rw [if_neg h]; decide

/-- The coerced value of a RiskLevel field always lies in the full
enumeration. -/
theorem coerce5_mem (o : List (String × JValue)) (k : String) :
    pyInStrList (if pyInStrList (pyGet o k) valid_risk_levels
                 then pyGetD o k (.str "unknown") else .str "unknown")
      valid_risk_levels = true := by
  by_cases h : pyInStrList (pyGet o k) valid_risk_levels
  · rw [if_pos h]
    cases hx : lookupKey o k with
    | none =>
      rw [show pyGet o k = .null by simp [pyGet, hx]] at h
      simp [pyInStrList] at h
    | some x =>
      rw [show pyGet o k = x by simp [pyGet, hx]] at h
      rw [show pyGetD o k (.str "unknown") = x by simp [pyGetD, hx]]
      exact h
  · rw [if_neg h]; decide

theorem vfo_entry_ok (e e' : JValue) (hs : validate_flying_object e = some e') :
    entry_ok "flying_objects" e' = true := by
  cases e with
  | obj o =>
    injection hs with hs
    subst hs
    simp [entry_ok, entry_shape_keys, field_enum_ok,
          coerce3_mem, coerce5_mem]
  | null => simp [validate_flying_object] at hs
  | bool b => simp [validate_flying_object] at hs
  | int n => simp [validate_flying_object] at hs
  | float q => simp [validate_flying_object] at hs
  | str s => simp [validate_flying_object] at hs
  | arr a => simp [validate_flying_object] at hs

theorem vsd_entry_ok (e e' : JValue)
    (hs : validate_structural_damage e = some e') :
    entry_ok "structural_damage" e' = true := by
  cases e with
  | obj o =>
    injection hs with hs
    subst hs
    simp [entry_ok, entry_shape_keys, field_enum_ok, coerce5_mem]
  | null => simp [validate_structural_damage] at hs
  | bool b => simp [validate_structural_damage] at hs
  | int n => simp [validate_structural_damage] at hs
  | float q => simp [validate_structural_damage] at hs
  | str s => simp [validate_structural_damage] at hs
  | arr a => simp [validate_structural_damage] at hs

theorem veo_entry_ok (e e' : JValue)
    (hs : validate_elevated_object e = some e') :
    entry_ok "elevated_objects" e' = true := by
  cases e with
  | obj o =>
    injection hs with hs
    subst hs
    simp [entry_ok, entry_shape_keys, field_enum_ok,
          coerce3_mem, coerce5_mem]
  | null => simp [validate_elevated_object] at hs
  | bool b => simp [validate_elevated_object] at hs
  | int n => simp [validate_elevated_object] at hs
  | float q => simp [validate_elevated_object] at hs
  | str s => simp [validate_elevated_object] at hs
  | arr a => simp [validate_elevated_object] at hs

theorem vth_entry_ok (e e' : JValue) (hs : validate_tree_hazard e = some e') :
    entry_ok "tree_hazards" e' = true := by
  cases e with
  | obj o =>
    injection hs with hs
    subst hs
    simp [entry_ok, entry_shape_keys, field_enum_ok, coerce5_mem]
  | null => simp [validate_tree_hazard] at hs
  | bool b => simp [validate_tree_hazard] at hs
  | int n => simp [validate_tree_hazard] at hs
  | float q => simp [validate_tree_hazard] at hs
  | str s => simp [validate_tree_hazard] at hs
  | arr a => simp [validate_tree_hazard] at hs

theorem validate_category_elim (f : JValue → Option JValue)
    (h : List (String × JValue)) (cat : String) (v : JValue)
    (hs : validate_category f h cat = some v) :
    ∃ ys, v = .arr ys ∧ mapOption f (category_items h cat) = some ys := by
  rw [validate_category_eq] at hs
  cases hm : mapOption f (category_items h cat) with
  | none => rw [hm] at hs; simp at hs
  | some ys =>
    rw [hm] at hs
    injection hs with hs
    exact ⟨ys, hs.symm, rfl⟩

theorem category_list_ok_of (f : JValue → Option JValue) (cat : String)
    (hok : ∀ e e', f e = some e' → entry_ok cat e' = true)
    (h : List (String × JValue)) (v : JValue)
    (hs : validate_category f h cat = some v) :
    category_list_ok cat v = true := by
  obtain ⟨ys, rfl, hm⟩ := validate_category_elim f h cat v hs
  show category_list_ok cat (.arr ys) = true
  unfold category_list_ok
  rw [List.all_eq_true]
  intro y hy
  obtain ⟨x, _, hfx⟩ := mapOption_mem f _ ys hm y hy
  exact hok x y hfx

theorem count_field_ok (v : JValue) :
    (isIntPy (if isIntPy v && decide (0 ≤ numVal v) then v else .int 0)
      && decide (0 ≤ numVal
          (if isIntPy v && decide (0 ≤ numVal v) then v else .int 0))) = true := by
  by_cases h : (isIntPy v && decide (0 ≤ numVal v)) = true
  · rw [if_pos h]; exact h
  · rw [if_neg h]; decide

theorem count_field_ok_prop (v : JValue) :
    isIntPy (if isIntPy v = true ∧ 0 ≤ numVal v then v else .int 0) = true ∧
    0 ≤ numVal (if isIntPy v = true ∧ 0 ≤ numVal v then v else .int 0) := by
  by_cases h : isIntPy v = true ∧ 0 ≤ numVal v
  · rw [if_pos h]; exact h
  · rw [if_neg h]
    refine ⟨rfl, ?_⟩
    show (0 : PyNum) ≤ numVal (.int 0)
    decide

theorem validate_risk_summary_ok (s : List (String × JValue)) :
    risk_summary_ok (validate_risk_summary s) = true := by
  unfold validate_risk_summary risk_summary_ok risk_summary_keys
  simp
  exact ⟨count_field_ok_prop _, count_field_ok_prop _, count_field_ok_prop _,
         count_field_ok_prop _, count_field_ok_prop _⟩

theorem default_risk_summary_ok :
    risk_summary_ok get_default_risk_summary = true := by decide

end OutputValidator

namespace OutputValidator

open JValue Report

theorem conformant_of_lookups (r : JValue) (hd : isDict r = true)
    (h1 : (jGet r "summary").isSome = true)
    (h2 : ∃ x, jGet r "overall_risk_level" = some x
          ∧ pyInStrList x valid_risk_levels = true)
    (h3 : ∃ hh, jGet r "hazards_by_category" = some (.obj hh)
          ∧ hh.map Prod.fst = hazard_categories
          ∧ hh.all (fun p => category_list_ok p.1 p.2) = true)
    (h4 : ∃ rs, jGet r "risk_summary" = some rs
          ∧ risk_summary_ok rs = true)
    (h5 : ∃ a, jGet r "urgent_actions" = some (.arr a))
    (h6 : ∃ c, jGet r "confidence_score" = some c
          ∧ confidence_ok c = true)
    (h7 : ∃ vv, jGet r "validation" = some vv
          ∧ validation_ok vv = true) :
    conformantReport r = true := by
  obtain ⟨out, rfl⟩ := (isDict_iff r).mp hd
  simp only [jGet] at h1 h2 h3 h4 h5 h6 h7
  obtain ⟨x2, hl2, hp2⟩ := h2
  obtain ⟨hh, hl3, hk3, ha3⟩ := h3
  obtain ⟨rs, hl4, hp4⟩ := h4
  obtain ⟨a5, hl5⟩ := h5
  obtain ⟨c6, hl6, hp6⟩ := h6
  obtain ⟨vv, hl7, hp7⟩ := h7
  show conformantReportL out = true
  unfold conformantReportL
  rw [containsKey_eq_isSome, h1, pyGet_of_lookup hl2,
      show pyGet out "confidence_score" = c6 from pyGet_of_lookup hl6,
      hl3, hl4, hl5, hl7]
  simp [hp2, hk3, ha3, hp4, hp6, hp7]

set_option maxHeartbeats 3200000 in
/-- For inputs in `hbc_input_ok`, normalization succeeds and its output
is a schema-conformant AnalysisReport. -/
theorem validate_conformant (l : List (String × JValue))
    (hok : hbc_input_ok l) :
    ∃ r, validate (.obj l) = some r ∧ conformantReport r = true := by
  have hX : ∃ h, pyGetD l "hazards_by_category" (.obj []) = .obj h
      ∧ entries_are_dicts h = true := by
    unfold hbc_input_ok at hok
    cases hlk : lookupKey l "hazards_by_category" with
    | none => exact ⟨[], by simp [pyGetD, hlk], by decide⟩
    | some x =>
      rw [hlk] at hok
      cases x with
      | obj h => exact ⟨h, by simp [pyGetD, hlk], hok⟩
      | null => exact hok.elim
      | bool b => exact hok.elim
      | int n => exact hok.elim
      | float q => exact hok.elim
      | str s => exact hok.elim
      | arr a => exact hok.elim
  obtain ⟨h, hXh, hEnt⟩ := hX
  obtain ⟨hv, hhv⟩ := vhc_isSome h hEnt
  have hs2 : lookupKey (check_overall_risk_level (check_required_fields l).1).1
      "hazards_by_category" = some (.obj h) := by
    rw [check_orl_lookup_ne _ _ (by decide),
        crf_lookup_mem l "hazards_by_category" (by decide),
        show pyGetD l "hazards_by_category"
            (get_default_value "hazards_by_category")
          = pyGetD l "hazards_by_category" (.obj []) from rfl, hXh]
  have hcheck : check_hazards_by_category
      (check_overall_risk_level (check_required_fields l).1).1
      = some (setKey (check_overall_risk_level (check_required_fields l).1).1
                "hazards_by_category" hv, []) := by
    rw [check_hbc_obj _ h (pyGet_of_lookup hs2), hhv]
    rfl
  have hsome : ∃ r, validate (.obj l) = some r := by
    rw [validate_obj_eq, hcheck]
    exact ⟨_, rfl⟩
  obtain ⟨r, hr⟩ := hsome
  refine ⟨r, hr, ?_⟩
  obtain ⟨s3, _, hre⟩ := validate_obj_some_elim l r hr
  apply conformant_of_lookups r (by rw [hre]; rfl)
  · rw [validate_lookup_summary l r hr]
    rfl
  · refine ⟨_, validate_lookup_orl l r hr, ?_⟩
    by_cases hc : pyInStrList (pyGetD l "overall_risk_level" (.str "unknown"))
        valid_risk_levels
    · rw [if_pos hc]; exact hc
    · rw [if_neg hc]; decide
  · obtain ⟨fo, sd, eo, th, c1, c2, c3, c4, hveq⟩ := vhc_some_elim h hv hhv
    refine ⟨[("flying_objects", fo), ("structural_damage", sd),
             ("elevated_objects", eo), ("tree_hazards", th)], ?_, rfl, ?_⟩
    · rw [validate_lookup_hbc_obj l r h hv hr hXh hhv, hveq]
    · simp only [List.all_cons, List.all_nil, Bool.and_eq_true]
      exact ⟨category_list_ok_of _ _ vfo_entry_ok h fo c1,
             ⟨category_list_ok_of _ _ vsd_entry_ok h sd c2,
              ⟨category_list_ok_of _ _ veo_entry_ok h eo c3,
               ⟨category_list_ok_of _ _ vth_entry_ok h th c4, trivial⟩⟩⟩⟩
  · by_cases hd : isDict (pyGetD l "risk_summary" get_default_risk_summary)
    · obtain ⟨ss, hss⟩ := (isDict_iff _).mp hd
      exact ⟨_, validate_lookup_rs_obj l r ss hr hss,
             validate_risk_summary_ok ss⟩
    · exact ⟨_, validate_lookup_rs_not_obj l r hr (by simpa using hd),
             default_risk_summary_ok⟩
  · have hua := validate_lookup_ua l r hr
    by_cases hd : isList (pyGetD l "urgent_actions" (.arr []))
    · obtain ⟨a, ha⟩ : ∃ a, pyGetD l "urgent_actions" (.arr []) = .arr a := by
        cases hu : pyGetD l "urgent_actions" (.arr []) <;> simp_all [isList]
      rw [if_pos hd, ha] at hua
      exact ⟨a, hua⟩
    · rw [if_neg hd] at hua
      exact ⟨[], hua⟩
  · refine ⟨_, validate_lookup_cs l r hr, ?_⟩
    by_cases hc : (isNumberPy (pyGetD l "confidence_score" (.float 0))
        && decide (0 ≤ numVal (pyGetD l "confidence_score" (.float 0)))
        && decide (numVal (pyGetD l "confidence_score" (.float 0)) ≤ 1))
    · rw [if_pos hc]; exact hc
    · rw [if_neg hc]; decide
  · refine ⟨_, validate_lookup_validation l r hr, ?_⟩
    unfold validation_ok
    cases validate_errors l with
    | nil => decide
    | cons e es => simp [isStr]

end OutputValidator

namespace OutputValidator

open JValue Report

/-! ## Further lemmas for the individual claims -/

/-- When the input's `hazards_by_category` (after defaulting) is a dict
and `validate` succeeded, `_validate_hazard_categories` succeeded on it
and its result is the output's `hazards_by_category` value. -/
theorem validate_some_vhc (l : List (String × JValue)) (r : JValue)
    (h : List (String × JValue))
    (hr : validate (.obj l) = some r)
    (hm : pyGetD l "hazards_by_category" (.obj []) = .obj h) :
    ∃ hv, validate_hazard_categories h = some hv
      ∧ jGet r "hazards_by_category" = some hv := by
  obtain ⟨s3, hs, _⟩ := validate_obj_some_elim l r hr
  have hs2 : lookupKey (check_overall_risk_level (check_required_fields l).1).1
      "hazards_by_category" = some (.obj h) := by
    rw [check_orl_lookup_ne _ _ (by decide),
        crf_lookup_mem l "hazards_by_category" (by decide),
        show pyGetD l "hazards_by_category"
            (get_default_value "hazards_by_category")
          = pyGetD l "hazards_by_category" (.obj []) from rfl, hm]
  rw [check_hbc_obj _ h (pyGet_of_lookup hs2)] at hs
  cases hvc : validate_hazard_categories h with
  | none => rw [hvc] at hs; simp at hs
  | some hv =>
    exact ⟨hv, rfl, validate_lookup_hbc_obj l r h hv hr hm hvc⟩

/-- Looking up a key of a keyed `map` construction. -/
theorem lookupKey_map_self (g : String → JValue) :
    ∀ (keys : List String) (k : String), k ∈ keys →
    lookupKey (keys.map fun k' => (k', g k')) k = some (g k) := by
  intro keys
  induction keys with
  | nil => intro k hk; exact absurd hk (List.not_mem_nil k)
  | cons k0 rest ih =>
    intro k hk
    by_cases he : k0 = k
    · subst he; simp [lookupKey]
    · have : k ∈ rest := (List.mem_cons.mp hk).resolve_left (fun hh => he hh.symm)
      simp [lookupKey, he, ih k this]

/-- `mapOption` over a list every element of which is a fixpoint. -/
theorem mapOption_fix (f : JValue → Option JValue) :
    ∀ (es : List JValue), (∀ e ∈ es, f e = some e) →
    mapOption f es = some es := by
  intro es
  induction es with
  | nil => intro _; rfl
  | cons e rest ih =>
    intro hall
    unfold mapOption
    rw [hall e (List.mem_cons_self e rest),
        ih (fun x hx => hall x (List.mem_cons_of_mem e hx))]

end OutputValidator

namespace Analyzer

open JValue

theorem pyRFind_succ_ne (cs : List Char) (c : Char) :
    pyRFind cs c + 1 ≠ -1 := by
  unfold pyRFind
  cases h : cs.reverse.findIdx? (· = c) with
  | none => exact (by decide : (-1 : Int) + 1 ≠ -1)
  | some i =>
    show ((cs.length - 1 - i : Nat) : Int) + 1 ≠ -1
    have h0 : (0 : Int) ≤ ((cs.length - 1 - i : Nat) : Int) := Int.natCast_nonneg _
    omega

theorem parse_response_eq (text : String) :
    parse_response text
      = if pyFind text.data '\x7b' ≠ -1 ∧ pyRFind text.data '\x7d' + 1 ≠ -1 then
          match json_loads (extract_span text) with
          | some v => v
          | none => fallback "Failed to parse response" text
        else fallback text text := rfl

end Analyzer

namespace OutputValidator

open JValue Report

/-! ## Fixpoint lemmas: the validator leaves conformant data unchanged -/

theorem coerce3_fix (v : JValue)
    (h : pyInStrList v ["high", "medium", "low", "unknown"] = true) :
    (if pyInStrList v ["high", "medium", "low"] then v else .str "unknown") = v := by
  cases v with
  | str s =>
    simp [pyInStrList] at h ⊢
    rcases h with h | h | h | h <;> subst h <;> simp
  | null => simp [pyInStrList] at h
  | bool b => simp [pyInStrList] at h
  | int n => simp [pyInStrList] at h
  | float q => simp [pyInStrList] at h
  | arr a => simp [pyInStrList] at h
  | obj o => simp [pyInStrList] at h

theorem coerce5_fix (v : JValue)
    (h : pyInStrList v valid_risk_levels = true) :
    (if pyInStrList v valid_risk_levels then v else .str "unknown") = v := by
  rw [if_pos h]

theorem vfo_fix (el : List (String × JValue))
    (hk : el.map Prod.fst = entry_shape_keys "flying_objects")
    (hall : ∀ p ∈ el, field_enum_ok p.1 p.2 = true) :
    validate_flying_object (.obj el) = some (.obj el) := by
  rw [show entry_shape_keys "flying_objects"
      = ["item", "description", "movement_risk", "impact_severity",
         "overall_risk", "location", "recommendation"] from rfl] at hk
  rcases el with _ | ⟨⟨k1, v1⟩, _ | ⟨⟨k2, v2⟩, _ | ⟨⟨k3, v3⟩, _ | ⟨⟨k4, v4⟩,
    _ | ⟨⟨k5, v5⟩, _ | ⟨⟨k6, v6⟩, _ | ⟨⟨k7, v7⟩, tail⟩⟩⟩⟩⟩⟩⟩ <;> simp at hk
  obtain ⟨rfl, rfl, rfl, rfl, rfl, rfl, rfl, htail⟩ := hk
  subst htail
  have h3 := hall ("movement_risk", v3) (by simp)
  have h4 := hall ("impact_severity", v4) (by simp)
  have h5 := hall ("overall_risk", v5) (by simp)
  simp [field_enum_ok] at h3 h4 h5
  unfold validate_flying_object
  simp [pyGetD, pyGet, lookupKey, coerce3_fix _ h3, coerce5_fix _ h4,
        coerce5_fix _ h5]

theorem vsd_fix (el : List (String × JValue))
    (hk : el.map Prod.fst = entry_shape_keys "structural_damage")
    (hall : ∀ p ∈ el, field_enum_ok p.1 p.2 = true) :
    validate_structural_damage (.obj el) = some (.obj el) := by
  rw [show entry_shape_keys "structural_damage"
      = ["item", "description", "risk_level", "location", "recommendation"]
      from rfl] at hk
  rcases el with _ | ⟨⟨k1, v1⟩, _ | ⟨⟨k2, v2⟩, _ | ⟨⟨k3, v3⟩, _ | ⟨⟨k4, v4⟩,
    _ | ⟨⟨k5, v5⟩, tail⟩⟩⟩⟩⟩ <;> simp at hk
  obtain ⟨rfl, rfl, rfl, rfl, rfl, htail⟩ := hk
  subst htail
  have h3 := hall ("risk_level", v3) (by simp)
  simp [field_enum_ok] at h3
  unfold validate_structural_damage
  simp [pyGetD, pyGet, lookupKey, coerce5_fix _ h3]

theorem veo_fix (el : List (String × JValue))
    (hk : el.map Prod.fst = entry_shape_keys "elevated_objects")
    (hall : ∀ p ∈ el, field_enum_ok p.1 p.2 = true) :
    validate_elevated_object (.obj el) = some (.obj el) := by
  rw [show entry_shape_keys "elevated_objects"
      = ["item", "description", "fall_risk", "impact_severity",
         "overall_risk", "location", "recommendation"] from rfl] at hk
  rcases el with _ | ⟨⟨k1, v1⟩, _ | ⟨⟨k2, v2⟩, _ | ⟨⟨k3, v3⟩, _ | ⟨⟨k4, v4⟩,
    _ | ⟨⟨k5, v5⟩, _ | ⟨⟨k6, v6⟩, _ | ⟨⟨k7, v7⟩, tail⟩⟩⟩⟩⟩⟩⟩ <;> simp at hk
  obtain ⟨rfl, rfl, rfl, rfl, rfl, rfl, rfl, htail⟩ := hk
  subst htail
  have h3 := hall ("fall_risk", v3) (by simp)
  have h4 := hall ("impact_severity", v4) (by simp)
  have h5 := hall ("overall_risk", v5) (by simp)
  simp [field_enum_ok] at h3 h4 h5
  unfold validate_elevated_object
  simp [pyGetD, pyGet, lookupKey, coerce3_fix _ h3, coerce5_fix _ h4,
        coerce5_fix _ h5]

theorem vth_fix (el : List (String × JValue))
    (hk : el.map Prod.fst = entry_shape_keys "tree_hazards")
    (hall : ∀ p ∈ el, field_enum_ok p.1 p.2 = true) :
    validate_tree_hazard (.obj el) = some (.obj el) := by
  rw [show entry_shape_keys "tree_hazards"
      = ["description", "risk_level", "location", "recommendation"]
      from rfl] at hk
  rcases el with _ | ⟨⟨k1, v1⟩, _ | ⟨⟨k2, v2⟩, _ | ⟨⟨k3, v3⟩, _ | ⟨⟨k4, v4⟩,
    tail⟩⟩⟩⟩ <;> simp at hk
  obtain ⟨rfl, rfl, rfl, rfl, htail⟩ := hk
  subst htail
  have h2 := hall ("risk_level", v2) (by simp)
  simp [field_enum_ok] at h2
  unfold validate_tree_hazard
  simp [pyGetD, pyGet, lookupKey, coerce5_fix _ h2]

theorem vfo_fix_entry (e : JValue) (h : entry_ok "flying_objects" e = true) :
    validate_flying_object e = some e := by
  cases e with
  | obj el =>
    simp only [entry_ok, Bool.and_eq_true, decide_eq_true_eq,
               List.all_eq_true] at h
    exact vfo_fix el h.1 (fun p hp => h.2 p hp)
  | null => simp [entry_ok] at h
  | bool b => simp [entry_ok] at h
  | int n => simp [entry_ok] at h
  | float q => simp [entry_ok] at h
  | str s => simp [entry_ok] at h
  | arr a => simp [entry_ok] at h

theorem vsd_fix_entry (e : JValue) (h : entry_ok "structural_damage" e = true) :
    validate_structural_damage e = some e := by
  cases e with
  | obj el =>
    simp only [entry_ok, Bool.and_eq_true, decide_eq_true_eq,
               List.all_eq_true] at h
    exact vsd_fix el h.1 (fun p hp => h.2 p hp)
  | null => simp [entry_ok] at h
  | bool b => simp [entry_ok] at h
  | int n => simp [entry_ok] at h
  | float q => simp [entry_ok] at h
  | str s => simp [entry_ok] at h
  | arr a => simp [entry_ok] at h

theorem veo_fix_entry (e : JValue) (h : entry_ok "elevated_objects" e = true) :
    validate_elevated_object e = some e := by
  cases e with
  | obj el =>
    simp only [entry_ok, Bool.and_eq_true, decide_eq_true_eq,
               List.all_eq_true] at h
    exact veo_fix el h.1 (fun p hp => h.2 p hp)
  | null => simp [entry_ok] at h
  | bool b => simp [entry_ok] at h
  | int n => simp [entry_ok] at h
  | float q => simp [entry_ok] at h
  | str s => simp [entry_ok] at h
  | arr a => simp [entry_ok] at h

theorem vth_fix_entry (e : JValue) (h : entry_ok "tree_hazards" e = true) :
    validate_tree_hazard e = some e := by
  cases e with
  | obj el =>
    simp only [entry_ok, Bool.and_eq_true, decide_eq_true_eq,
               List.all_eq_true] at h
    exact vth_fix el h.1 (fun p hp => h.2 p hp)
  | null => simp [entry_ok] at h
  | bool b => simp [entry_ok] at h
  | int n => simp [entry_ok] at h
  | float q => simp [entry_ok] at h
  | str s => simp [entry_ok] at h
  | arr a => simp [entry_ok] at h

end OutputValidator

namespace OutputValidator

open JValue Report

theorem vhc_fix (h : List (String × JValue))
    (hk : h.map Prod.fst = hazard_categories)
    (hall : ∀ p ∈ h, category_list_ok p.1 p.2 = true) :
    validate_hazard_categories h = some (.obj h) := by
  rw [show hazard_categories
      = ["flying_objects", "structural_damage", "elevated_objects",
         "tree_hazards"] from rfl] at hk
  rcases h with _ | ⟨⟨k1, c1⟩, _ | ⟨⟨k2, c2⟩, _ | ⟨⟨k3, c3⟩,
    _ | ⟨⟨k4, c4⟩, tail⟩⟩⟩⟩ <;> simp at hk
  obtain ⟨rfl, rfl, rfl, rfl, htail⟩ := hk
  subst htail
  have hc1 := hall ("flying_objects", c1) (by simp)
  have hc2 := hall ("structural_damage", c2) (by simp)
  have hc3 := hall ("elevated_objects", c3) (by simp)
  have hc4 := hall ("tree_hazards", c4) (by simp)
  obtain ⟨es1, rfl, he1⟩ : ∃ es, c1 = .arr es ∧ ∀ e ∈ es,
      entry_ok "flying_objects" e = true := by
    cases c1 <;> simp_all [category_list_ok]
  obtain ⟨es2, rfl, he2⟩ : ∃ es, c2 = .arr es ∧ ∀ e ∈ es,
      entry_ok "structural_damage" e = true := by
    cases c2 <;> simp_all [category_list_ok]
  obtain ⟨es3, rfl, he3⟩ : ∃ es, c3 = .arr es ∧ ∀ e ∈ es,
      entry_ok "elevated_objects" e = true := by
    cases c3 <;> simp_all [category_list_ok]
  obtain ⟨es4, rfl, he4⟩ : ∃ es, c4 = .arr es ∧ ∀ e ∈ es,
      entry_ok "tree_hazards" e = true := by
    cases c4 <;> simp_all [category_list_ok]
  unfold validate_hazard_categories
  rw [validate_category_eq, validate_category_eq, validate_category_eq,
      validate_category_eq,
      show category_items [("flying_objects", .arr es1),
        ("structural_damage", .arr es2), ("elevated_objects", .arr es3),
        ("tree_hazards", .arr es4)] "flying_objects" = es1 from rfl,
      show category_items [("flying_objects", .arr es1),
        ("structural_damage", .arr es2), ("elevated_objects", .arr es3),
        ("tree_hazards", .arr es4)] "structural_damage" = es2 from rfl,
      show category_items [("flying_objects", .arr es1),
        ("structural_damage", .arr es2), ("elevated_objects", .arr es3),
        ("tree_hazards", .arr es4)] "elevated_objects" = es3 from rfl,
      show category_items [("flying_objects", .arr es1),
        ("structural_damage", .arr es2), ("elevated_objects", .arr es3),
        ("tree_hazards", .arr es4)] "tree_hazards" = es4 from rfl,
      mapOption_fix _ es1 (fun e he => vfo_fix_entry e (he1 e he)),
      mapOption_fix _ es2 (fun e he => vsd_fix_entry e (he2 e he)),
      mapOption_fix _ es3 (fun e he => veo_fix_entry e (he3 e he)),
      mapOption_fix _ es4 (fun e he => vth_fix_entry e (he4 e he))]
  rfl

theorem validate_risk_summary_fix (s : List (String × JValue))
    (hok : risk_summary_ok (.obj s) = true) :
    validate_risk_summary s = .obj s := by
  simp only [risk_summary_ok, Bool.and_eq_true, decide_eq_true_eq,
             List.all_eq_true] at hok
  obtain ⟨hk, hall⟩ := hok
  rw [show risk_summary_keys
      = ["critical_count", "high_count", "medium_count", "low_count",
         "total_hazards"] from rfl] at hk
  rcases s with _ | ⟨⟨k1, v1⟩, _ | ⟨⟨k2, v2⟩, _ | ⟨⟨k3, v3⟩, _ | ⟨⟨k4, v4⟩,
    _ | ⟨⟨k5, v5⟩, tail⟩⟩⟩⟩⟩ <;> simp at hk
  obtain ⟨rfl, rfl, rfl, rfl, rfl, htail⟩ := hk
  subst htail
  have h1 := hall ("critical_count", v1) (by simp)
  have h2 := hall ("high_count", v2) (by simp)
  have h3 := hall ("medium_count", v3) (by simp)
  have h4 := hall ("low_count", v4) (by simp)
  have h5 := hall ("total_hazards", v5) (by simp)
  simp only [Bool.and_eq_true, decide_eq_true_eq] at h1 h2 h3 h4 h5
  unfold validate_risk_summary
  simp [risk_summary_keys, pyGetD, lookupKey, h1.1, h1.2, h2.1, h2.2,
        h3.1, h3.2, h4.1, h4.2, h5.1, h5.2]

set_option maxHeartbeats 3200000 in
/-- A fully conformant report whose validation record shows no errors is
a fixpoint of `validate`. -/
theorem validate_fix (R : JValue) (hc : conformantReport R = true)
    (hval : jGet R "validation"
      = some (.obj [("errors", .arr []), ("is_valid", .bool true)])) :
    validate R = some R := by
  cases R with
  | obj out =>
    replace hc : conformantReportL out = true := hc
    replace hval : lookupKey out "validation"
        = some (.obj [("errors", .arr []), ("is_valid", .bool true)]) := hval
    unfold conformantReportL at hc
    simp only [Bool.and_eq_true] at hc
    obtain ⟨⟨⟨⟨⟨⟨hsum, horl⟩, hhbc⟩, hrs⟩, hua⟩, hcs⟩, _⟩ := hc
    -- individual keys are present
    have hall : ∀ f ∈ required_fields, containsKey out f = true := by
      intro f hf
      simp [required_fields] at hf
      rcases hf with rfl | rfl | rfl | rfl | rfl | rfl
      · rw [containsKey_eq_isSome]
        cases hx : lookupKey out "overall_risk_level" with
        | none => rw [show pyGet out "overall_risk_level" = .null
                      by simp [pyGet, hx]] at horl; simp [pyInStrList] at horl
        | some x => rfl
      · rw [containsKey_eq_isSome]
        cases hx : lookupKey out "hazards_by_category" with
        | none => rw [hx] at hhbc; simp at hhbc
        | some x => rfl
      · rw [containsKey_eq_isSome]
        cases hx : lookupKey out "risk_summary" with
        | none => rw [hx] at hrs; simp at hrs
        | some x => rfl
      · rw [containsKey_eq_isSome]
        cases hx : lookupKey out "urgent_actions" with
        | none => rw [hx] at hua; simp at hua
        | some x => rfl
      · exact hsum
      · rw [containsKey_eq_isSome]
        cases hx : lookupKey out "confidence_score" with
        | none => rw [show pyGet out "confidence_score" = .null
                      by simp [pyGet, hx]] at hcs
                  simp [confidence_ok, isNumberPy] at hcs
        | some x => rfl
    have h1 : check_required_fields out = (out, []) := by
      unfold check_required_fields
      exact req_fold_all_present required_fields out [] hall
    have h2 : check_overall_risk_level out = (out, []) := by
      unfold check_overall_risk_level
      rw [if_pos horl]
    -- hazards_by_category is a conformant dict
    have h3 : check_hazards_by_category out = some (out, []) := by
      cases hlk : lookupKey out "hazards_by_category" with
      | none => rw [hlk] at hhbc; simp at hhbc
      | some x =>
        rw [hlk] at hhbc
        cases x with
        | obj hh =>
          simp only [Bool.and_eq_true, decide_eq_true_eq,
                     List.all_eq_true] at hhbc
          rw [check_hbc_obj out hh (pyGet_of_lookup hlk),
              vhc_fix hh hhbc.1 (fun p hp => hhbc.2 p hp),
              Option.map_some']
          rw [setKey_lookup_self out "hazards_by_category" (.obj hh) hlk]
        | null => simp at hhbc
        | bool b => simp at hhbc
        | int n => simp at hhbc
        | float q => simp at hhbc
        | str s => simp at hhbc
        | arr a => simp at hhbc
    have h4 : check_risk_summary out = (out, []) := by
      cases hlk : lookupKey out "risk_summary" with
      | none => rw [hlk] at hrs; simp at hrs
      | some x =>
        rw [hlk] at hrs
        cases x with
        | obj s =>
          rw [check_rs_obj out s (pyGet_of_lookup hlk),
              validate_risk_summary_fix s hrs,
              setKey_lookup_self out "risk_summary" (.obj s) hlk]
        | null => simp [risk_summary_ok] at hrs
        | bool b => simp [risk_summary_ok] at hrs
        | int n => simp [risk_summary_ok] at hrs
        | float q => simp [risk_summary_ok] at hrs
        | str s => simp [risk_summary_ok] at hrs
        | arr a => simp [risk_summary_ok] at hrs
    have h5 : check_confidence_score out = (out, []) := by
      apply check_cs_valid
      cases hx : lookupKey out "confidence_score" with
      | none =>
        rw [show pyGet out "confidence_score" = .null
            by simp [pyGet, hx]] at hcs
        simp [confidence_ok, isNumberPy] at hcs
      | some c =>
        rw [pyGetD_of_lookup _ hx]
        rw [show pyGet out "confidence_score" = c
            by simp [pyGet, hx]] at hcs
        exact hcs
    have h6 : check_urgent_actions out = (out, []) := by
      cases hlk : lookupKey out "urgent_actions" with
      | none => rw [hlk] at hua; simp at hua
      | some x =>
        rw [hlk] at hua
        cases x with
        | arr a => exact check_ua_arr out a (pyGet_of_lookup hlk)
        | null => simp at hua
        | bool b => simp at hua
        | int n => simp at hua
        | float q => simp at hua
        | str s => simp at hua
        | obj o => simp at hua
    rw [validate_obj_eq]
    simp only [h1, h2, h3, h4, h5, h6, Option.map_some']
    show some (JValue.obj (attach_validation out [])) = some (JValue.obj out)
    rw [show attach_validation out []
          = setKey out "validation"
              (JValue.obj [("errors", JValue.arr []),
                           ("is_valid", JValue.bool true)]) from rfl,
        setKey_lookup_self out "validation" _ hval]
  | null => simp [conformantReport] at hc
  | bool b => simp [conformantReport] at hc
  | int n => simp [conformantReport] at hc
  | float q => simp [conformantReport] at hc
  | str s => simp [conformantReport] at hc
  | arr a => simp [conformantReport] at hc

end OutputValidator

namespace OutputValidator

open JValue Report

/-! ## Enum-closure lemmas (claim C8) -/

theorem vfo_enum_closed (e e' : JValue)
    (hs : validate_flying_object e = some e') :
    entry_enum_closed "flying_objects" e' = true := by
  cases e with
  | obj o =>
    injection hs with hs
    subst hs
    simp [entry_enum_closed, pyGet, lookupKey]
    exact ⟨⟨coerce3_mem o "movement_risk", coerce5_mem o "impact_severity"⟩,
           coerce5_mem o "overall_risk"⟩
  | null => simp [validate_flying_object] at hs
  | bool b => simp [validate_flying_object] at hs
  | int n => simp [validate_flying_object] at hs
  | float q => simp [validate_flying_object] at hs
  | str s => simp [validate_flying_object] at hs
  | arr a => simp [validate_flying_object] at hs

theorem vsd_enum_closed (e e' : JValue)
    (hs : validate_structural_damage e = some e') :
    entry_enum_closed "structural_damage" e' = true := by
  cases e with
  | obj o =>
    injection hs with hs
    subst hs
    simp [entry_enum_closed, pyGet, lookupKey]
    exact coerce5_mem o "risk_level"
  | null => simp [validate_structural_damage] at hs
  | bool b => simp [validate_structural_damage] at hs
  | int n => simp [validate_structural_damage] at hs
  | float q => simp [validate_structural_damage] at hs
  | str s => simp [validate_structural_damage] at hs
  | arr a => simp [validate_structural_damage] at hs

theorem veo_enum_closed (e e' : JValue)
    (hs : validate_elevated_object e = some e') :
    entry_enum_closed "elevated_objects" e' = true := by
  cases e with
  | obj o =>
    injection hs with hs
    subst hs
    simp [entry_enum_closed, pyGet, lookupKey]
    exact ⟨⟨coerce3_mem o "fall_risk", coerce5_mem o "impact_severity"⟩,
           coerce5_mem o "overall_risk"⟩
  | null => simp [validate_elevated_object] at hs
  | bool b => simp [validate_elevated_object] at hs
  | int n => simp [validate_elevated_object] at hs
  | float q => simp [validate_elevated_object] at hs
  | str s => simp [validate_elevated_object] at hs
  | arr a => simp [validate_elevated_object] at hs

theorem vth_enum_closed (e e' : JValue)
    (hs : validate_tree_hazard e = some e') :
    entry_enum_closed "tree_hazards" e' = true := by
  cases e with
  | obj o =>
    injection hs with hs
    subst hs
    simp [entry_enum_closed, pyGet, lookupKey]
    exact coerce5_mem o "risk_level"
  | null => simp [validate_tree_hazard] at hs
  | bool b => simp [validate_tree_hazard] at hs
  | int n => simp [validate_tree_hazard] at hs
  | float q => simp [validate_tree_hazard] at hs
  | str s => simp [validate_tree_hazard] at hs
  | arr a => simp [validate_tree_hazard] at hs

theorem category_enum_closed_of (f : JValue → Option JValue) (cat : String)
    (hok : ∀ e e', f e = some e' → entry_enum_closed cat e' = true)
    (h : List (String × JValue)) (v : JValue)
    (hs : validate_category f h cat = some v) :
    category_enum_closed cat v = true := by
  obtain ⟨ys, rfl, hm⟩ := validate_category_elim f h cat v hs
  show category_enum_closed cat (.arr ys) = true
  unfold category_enum_closed
  rw [List.all_eq_true]
  intro y hy
  obtain ⟨x, _, hfx⟩ := mapOption_mem f _ ys hm y hy
  exact hok x y hfx

theorem enum_closed_of_lookups (r : JValue) (hd : isDict r = true)
    (h1 : ∃ x, jGet r "overall_risk_level" = some x
          ∧ pyInStrList x valid_risk_levels = true)
    (h2 : ∃ hh, jGet r "hazards_by_category" = some (.obj hh)
          ∧ (hh.all fun p => category_enum_closed p.1 p.2) = true) :
    enumClosedReport r = true := by
  obtain ⟨out, rfl⟩ := (isDict_iff r).mp hd
  simp only [jGet] at h1 h2
  obtain ⟨x, hl, hp⟩ := h1
  obtain ⟨hh, hl2, hp2⟩ := h2
  show enumClosedReportL out = true
  unfold enumClosedReportL
  rw [pyGet_of_lookup hl, hl2]
  simp [hp, hp2]

set_option maxHeartbeats 3200000 in
/-- Every report `validate` returns is enum-closed. -/
theorem validate_enum_closed (l : List (String × JValue)) (r : JValue)
    (h : validate (.obj l) = some r) :
    enumClosedReport r = true := by
  have hd : isDict r = true := by
    obtain ⟨s3, _, hre⟩ := validate_obj_some_elim l r h
    rw [hre]; rfl
  apply enum_closed_of_lookups r hd
  · refine ⟨_, validate_lookup_orl l r h, ?_⟩
    by_cases hc : pyInStrList (pyGetD l "overall_risk_level" (.str "unknown"))
        valid_risk_levels
    · rw [if_pos hc]; exact hc
    · rw [if_neg hc]; decide
  · by_cases hdd : isDict (pyGetD l "hazards_by_category" (.obj []))
    · obtain ⟨hh, hXh⟩ := (isDict_iff _).mp hdd
      obtain ⟨hv, hvc, hbcout⟩ := validate_some_vhc l r hh h hXh
      obtain ⟨fo, sd, eo, th, c1, c2, c3, c4, hveq⟩ := vhc_some_elim hh hv hvc
      refine ⟨[("flying_objects", fo), ("structural_damage", sd),
               ("elevated_objects", eo), ("tree_hazards", th)],
              by rw [hbcout, hveq], ?_⟩
      simp only [List.all_cons, List.all_nil, Bool.and_eq_true]
      exact ⟨category_enum_closed_of _ _ vfo_enum_closed hh fo c1,
             ⟨category_enum_closed_of _ _ vsd_enum_closed hh sd c2,
              ⟨category_enum_closed_of _ _ veo_enum_closed hh eo c3,
               ⟨category_enum_closed_of _ _ vth_enum_closed hh th c4,
                trivial⟩⟩⟩⟩
    · exact ⟨[], validate_lookup_hbc_not_obj l r h (by simpa using hdd), rfl⟩

end OutputValidator

namespace OutputValidator

open JValue Report

/-- The per-key rule of `_validate_risk_summary`, observed through a
whole `validate` run: when the input's `risk_summary` is a mapping, each
count field of the output equals the input's value iff that value passes
`isinstance(value, int) and value >= 0`, and `0` otherwise. -/
theorem validate_risk_summary_rule (l s : List (String × JValue))
    (r : JValue) (k : String)
    (hs : lookupKey l "risk_summary" = some (.obj s))
    (hr : validate (.obj l) = some r)
    (hk : k ∈ risk_summary_keys) :
    (jGet r "risk_summary").bind (fun rs => jGet rs k)
      = some (if isIntPy (pyGetD s k (.int 0))
                && decide (0 ≤ numVal (pyGetD s k (.int 0)))
              then pyGetD s k (.int 0) else .int 0) := by
  have hm : pyGetD l "risk_summary" get_default_risk_summary = .obj s := by
    simp [pyGetD, hs]
  rw [validate_lookup_rs_obj l r s hr hm]
  show jGet (validate_risk_summary s) k = _
  exact lookupKey_map_self
    (fun k0 => if isIntPy (pyGetD s k0 (.int 0))
        && decide (0 ≤ numVal (pyGetD s k0 (.int 0)))
      then pyGetD s k0 (.int 0) else .int 0) risk_summary_keys k hk

end OutputValidator

section Claims

open JValue OutputValidator Analyzer Report Examples

/-- Claim C1, counterexample: the spec asserts `validate` never raises,
for `None` among other inputs; but Python's `None.copy()` raises
`AttributeError`, modelled by `validate .null = none` (no report is
produced). -/
theorem claim_C1_counterexample : validate .null = none := rfl

/-- Claim C1 (amended): `validate` terminates normally and returns a
schema-conformant AnalysisReport for every *mapping* input whose
`hazards_by_category`, when present, is a mapping whose category lists
contain only mappings.  (As stated the claim is false: non-mapping
inputs and non-mapping hazard entries raise, and a non-mapping
`hazards_by_category` produces an output without the four category
keys.) -/
theorem claim_C1 (l : List (String × JValue)) (hok : hbc_input_ok l) :
    ∃ r, validate (.obj l) = some r ∧ conformantReport r = true :=
  validate_conformant l hok

/-- Witness for C1 at the empty mapping. -/
theorem claim_C1_witness :
    hbc_input_ok ([] : List (String × JValue))
    ∧ ∃ r, validate (.obj []) = some r ∧ conformantReport r = true :=
  ⟨by simp [hbc_input_ok, lookupKey], claim_C1 [] (by simp [hbc_input_ok, lookupKey])⟩

/-- Claim C2, counterexample: for input `{"hazards_by_category": 5}` the
output's `hazards_by_category` is the *empty* mapping — the four fixed
category keys are not produced on the non-mapping branch, contradicting
the claim's "in particular also when ... not a mapping". -/
theorem claim_C2_counterexample :
    ((validate (.obj [("hazards_by_category", .int 5)])).bind
      (fun r => jGet r "hazards_by_category")) = some (.obj [])
    ∧ (((validate (.obj [("hazards_by_category", .int 5)])).bind
        (fun r => jGet r "hazards_by_category")).bind objKeys) = some [] :=
  ⟨rfl, rfl⟩

/-- Claim C2 (amended): for every mapping input on which `validate`
returns, the output's `hazards_by_category` has exactly the four fixed
keys when the input's `hazards_by_category` is absent or is a mapping;
when it is present and not a mapping, the output's `hazards_by_category`
is the empty mapping (with an error recorded). -/
theorem claim_C2 (l : List (String × JValue)) (r : JValue)
    (h : validate (.obj l) = some r) :
    (isDict (pyGetD l "hazards_by_category" (.obj [])) = true →
      (jGet r "hazards_by_category").bind objKeys = some hazard_categories)
    ∧ (isDict (pyGetD l "hazards_by_category" (.obj [])) = false →
      jGet r "hazards_by_category" = some (.obj [])) := by
  constructor
  · intro hd
    obtain ⟨hh, hXh⟩ := (isDict_iff _).mp hd
    obtain ⟨hv, hvc, hout⟩ := validate_some_vhc l r hh h hXh
    obtain ⟨fo, sd, eo, th, _, _, _, _, hveq⟩ := vhc_some_elim hh hv hvc
    rw [hout, hveq]
    rfl
  · intro hd
    exact validate_lookup_hbc_not_obj l r h hd

/-- Witness for C2 at the empty mapping (category field absent). -/
theorem claim_C2_witness :
    (isDict (pyGetD [] "hazards_by_category" (.obj [])) = true →
      (jGet scenario_a_output "hazards_by_category").bind objKeys
        = some hazard_categories)
    ∧ (isDict (pyGetD [] "hazards_by_category" (.obj [])) = false →
      jGet scenario_a_output "hazards_by_category" = some (.obj [])) :=
  claim_C2 [] scenario_a_output rfl

/-- Claim C3 (confirmed): Scenario A — normalizing the empty mapping
yields `overall_risk_level "unknown"`, four empty category sequences,
an all-zero `risk_summary`, `confidence_score 0.0`, summary
`"Analysis incomplete"`, empty `urgent_actions`, and a validation record
with exactly the six `"Missing required field: <name>"` errors in the
fixed `required_fields` order and `is_valid` false. -/
theorem claim_C3 :
    validate (.obj []) = some scenario_a_output
    ∧ jGet scenario_a_output "overall_risk_level" = some (.str "unknown")
    ∧ jGet scenario_a_output "hazards_by_category"
        = some (.obj [("flying_objects", .arr []), ("structural_damage", .arr []),
                      ("elevated_objects", .arr []), ("tree_hazards", .arr [])])
    ∧ jGet scenario_a_output "risk_summary"
        = some (.obj (risk_summary_keys.map fun k => (k, .int 0)))
    ∧ jGet scenario_a_output "confidence_score" = some (.float 0)
    ∧ jGet scenario_a_output "summary" = some (.str "Analysis incomplete")
    ∧ jGet scenario_a_output "urgent_actions" = some (.arr [])
    ∧ jGet scenario_a_output "validation"
        = some (.obj [("errors",
                 .arr ((required_fields.map
                   fun f => "Missing required field: " ++ f).map .str)),
                ("is_valid", .bool false)]) :=
  ⟨rfl, rfl, rfl, rfl, rfl, rfl, rfl, rfl⟩

/-- Claim C4 (confirmed): whenever the raw text has no `{` at all, or
its last `}` precedes its first `{` (so the spanned substring is empty),
or the spanned substring fails to parse as JSON, `_parse_response`
returns the fallback structure without raising — with `summary` the raw
text when the brace-locating step found no `{`, and
`"Failed to parse response"` when braces were found but the parse
failed. -/
theorem claim_C4 (text : String)
    (h : pyFind text.data '\x7b' = -1 ∨ json_loads (extract_span text) = none) :
    parse_response text
      = fallback (if pyFind text.data '\x7b' = -1 then text
                  else "Failed to parse response") text := by
  rw [parse_response_eq]
  by_cases hs : pyFind text.data '\x7b' = -1
  · rw [if_neg (by simp [hs]), if_pos hs]
  · have hj : json_loads (extract_span text) = none := h.resolve_left hs
    rw [if_pos ⟨hs, pyRFind_succ_ne text.data '\x7d'⟩, hj, if_neg hs]

/-- Witness for C4 at the reversed-brace text. -/
theorem claim_C4_witness :
    (pyFind ("\x7d \x7b").data '\x7b' = -1
      ∨ json_loads (extract_span "\x7d \x7b") = none)
    ∧ parse_response "\x7d \x7b"
        = fallback (if pyFind ("\x7d \x7b").data '\x7b' = -1 then "\x7d \x7b"
                    else "Failed to parse response") "\x7d \x7b" :=
  ⟨Or.inr rfl, claim_C4 "\x7d \x7b" (Or.inr rfl)⟩

set_option maxRecDepth 100000 in
/-- Claim C5 (confirmed): the Scenario D text parses to the embedded
object; normalizing it resets the negative `high_count` to `0`, sets the
absent `medium_count`/`low_count` to `0`, preserves `critical_count` and
`total_hazards`, records no error and `is_valid` true; and in general,
when `risk_summary` is a mapping, each of the five count fields is kept
iff it passes Python's `isinstance(value, int) and value >= 0` (booleans
count as ints) and is silently reset to `0` otherwise. -/
theorem claim_C5 :
    parse_response scenario_d_text = scenario_d_parsed
    ∧ (validate scenario_d_parsed).bind (fun r => jGet r "risk_summary")
        = some (.obj [("critical_count", .int 2), ("high_count", .int 0),
                      ("medium_count", .int 0), ("low_count", .int 0),
                      ("total_hazards", .int 2)])
    ∧ (validate scenario_d_parsed).bind (fun r => jGet r "validation")
        = some (.obj [("errors", .arr []), ("is_valid", .bool true)])
    ∧ ∀ (l s : List (String × JValue)) (r : JValue) (k : String),
        lookupKey l "risk_summary" = some (.obj s) →
        validate (.obj l) = some r →
        k ∈ risk_summary_keys →
        (jGet r "risk_summary").bind (fun rs => jGet rs k)
          = some (if isIntPy (pyGetD s k (.int 0))
                    && decide (0 ≤ numVal (pyGetD s k (.int 0)))
                  then pyGetD s k (.int 0) else .int 0) :=
  ⟨rfl, rfl, rfl, validate_risk_summary_rule⟩

/-- Witness for C5's general count rule at a small concrete run. -/
theorem claim_C5_witness :
    (jGet (.obj [("overall_risk_level", .str "low"),
        ("hazards_by_category",
          .obj [("flying_objects", .arr []), ("structural_damage", .arr []),
                ("elevated_objects", .arr []), ("tree_hazards", .arr [])]),
        ("risk_summary",
          .obj [("critical_count", .int 0), ("high_count", .int 0),
                ("medium_count", .int 0), ("low_count", .int 0),
                ("total_hazards", .int 0)]),
        ("urgent_actions", .arr []), ("summary", .str "s"),
        ("confidence_score", .int 0),
        ("validation", .obj [("errors", .arr []), ("is_valid", .bool true)])])
      "risk_summary").bind (fun rs => jGet rs "high_count")
      = some (.int 0) :=
  claim_C5.2.2.2
    [("overall_risk_level", .str "low"), ("hazards_by_category", .obj []),
     ("risk_summary", .obj [("high_count", .int (-1))]),
     ("urgent_actions", .arr []), ("summary", .str "s"),
     ("confidence_score", .int 0)]
    [("high_count", .int (-1))] _ "high_count" rfl rfl (by decide)

/-- Claim C6, counterexample: a stray key *inside*
`hazards_by_category` is dropped — `_validate_hazard_categories`
rebuilds the dict with only the four fixed keys — contradicting the
claim's "inside nested structures such as hazards_by_category". -/
theorem claim_C6_counterexample :
    jGet (.obj [("extra", .str "v")]) "extra" = some (.str "v")
    ∧ ((validate (.obj [("hazards_by_category",
          .obj [("extra", .str "v")])])).bind
        (fun r => jGet r "hazards_by_category")).bind
        (fun hh => jGet hh "extra") = none :=
  ⟨rfl, rfl⟩

/-- Claim C6 (amended): unknown keys are passed through unmodified at
the *top level* only — every input key outside the six validated fields
and distinct from `validation` is present in the output with the input's
value (and absent keys stay absent). -/
theorem claim_C6 (l : List (String × JValue)) (k : String) (r : JValue)
    (h : validate (.obj l) = some r) (h1 : k ∉ required_fields)
    (h2 : k ≠ "validation") :
    jGet r k = lookupKey l k :=
  validate_lookup_frame l r k h h1 h2

/-- Witness for C6 at a mapping with one custom key. -/
theorem claim_C6_witness :
    jGet (.obj [("custom", .int 7), ("overall_risk_level", .str "unknown"),
        ("hazards_by_category",
          .obj [("flying_objects", .arr []), ("structural_damage", .arr []),
                ("elevated_objects", .arr []), ("tree_hazards", .arr [])]),
        ("risk_summary",
          .obj [("critical_count", .int 0), ("high_count", .int 0),
                ("medium_count", .int 0), ("low_count", .int 0),
                ("total_hazards", .int 0)]),
        ("urgent_actions", .arr []),
        ("summary", .str "Analysis incomplete"),
        ("confidence_score", .float 0),
        ("validation",
          .obj [("errors",
                  .arr [.str "Missing required field: overall_risk_level",
                        .str "Missing required field: hazards_by_category",
                        .str "Missing required field: risk_summary",
                        .str "Missing required field: urgent_actions",
                        .str "Missing required field: summary",
                        .str "Missing required field: confidence_score"]),
                ("is_valid", .bool false)])])
      "custom" = some (.int 7) :=
  claim_C6 [("custom", .int 7)] "custom" _ rfl (by decide) (by decide)

/-- Claim C7 (confirmed): normalizing an already-conformant
AnalysisReport (nested mappings in the validator's canonical key order)
whose validation record shows no errors yields the identical report. -/
theorem claim_C7 (R : JValue) (hc : conformantReport R = true)
    (hval : jGet R "validation"
      = some (.obj [("errors", .arr []), ("is_valid", .bool true)])) :
    validate R = some R :=
  validate_fix R hc hval

/-- Witness for C7 at a conformant report with one flying-object
entry. -/
theorem claim_C7_witness :
    validate (.obj [("overall_risk_level", .str "medium"),
        ("hazards_by_category",
          .obj [("flying_objects",
                  .arr [.obj [("item", .str "chair"),
                              ("description", .str "plastic chair"),
                              ("movement_risk", .str "high"),
                              ("impact_severity", .str "medium"),
                              ("overall_risk", .str "medium"),
                              ("location", .str "yard"),
                              ("recommendation", .str "secure it")]]),
                ("structural_damage", .arr []),
                ("elevated_objects", .arr []), ("tree_hazards", .arr [])]),
        ("risk_summary",
          .obj [("critical_count", .int 0), ("high_count", .int 0),
                ("medium_count", .int 1), ("low_count", .int 0),
                ("total_hazards", .int 1)]),
        ("urgent_actions", .arr [.str "secure the chair"]),
        ("summary", .str "one hazard"), ("confidence_score", .float 0),
        ("validation", .obj [("errors", .arr []), ("is_valid", .bool true)])])
      = some (.obj [("overall_risk_level", .str "medium"),
        ("hazards_by_category",
          .obj [("flying_objects",
                  .arr [.obj [("item", .str "chair"),
                              ("description", .str "plastic chair"),
                              ("movement_risk", .str "high"),
                              ("impact_severity", .str "medium"),
                              ("overall_risk", .str "medium"),
                              ("location", .str "yard"),
                              ("recommendation", .str "secure it")]]),
                ("structural_damage", .arr []),
                ("elevated_objects", .arr []), ("tree_hazards", .arr [])]),
        ("risk_summary",
          .obj [("critical_count", .int 0), ("high_count", .int 0),
                ("medium_count", .int 1), ("low_count", .int 0),
                ("total_hazards", .int 1)]),
        ("urgent_actions", .arr [.str "secure the chair"]),
        ("summary", .str "one hazard"), ("confidence_score", .float 0),
        ("validation", .obj [("errors", .arr []), ("is_valid", .bool true)])]) :=
  claim_C7 _ rfl rfl

/-- Claim C8 (confirmed): for a mapping input whose hazard entries (if
any) are mappings, every risk-valued field of the produced report lies
in its declared enumeration (`overall_risk_level`, `impact_severity`,
`overall_risk`, `risk_level` in the five-valued set, `movement_risk` and
`fall_risk` in the four-valued one) — invalid input values are coerced
to `"unknown"`, never passed through. -/
theorem claim_C8 (l : List (String × JValue)) (r : JValue)
    (_hok : hbc_entries_ok l) (h : validate (.obj l) = some r) :
    enumClosedReport r = true :=
  validate_enum_closed l r h

/-- Witness for C8 at the empty mapping. -/
theorem claim_C8_witness : enumClosedReport scenario_a_output = true :=
  claim_C8 [] scenario_a_output (by simp [hbc_entries_ok, lookupKey]) rfl

/-- Claim C9 (confirmed): `validate` is deterministic (equal inputs give
equal outputs), and its error list is exactly `validate_errors` — the
concatenation of the per-check error components in the fixed check order
(the six missing-field checks in `required_fields` order, then
`overall_risk_level`, `hazards_by_category`, `risk_summary`,
`confidence_score`, `urgent_actions`), with no reordering or
deduplication. -/
theorem claim_C9 :
    (∀ a b : JValue, a = b → validate a = validate b)
    ∧ ∀ (l : List (String × JValue)) (r : JValue),
        validate (.obj l) = some r →
        jGet r "validation"
          = some (.obj [("errors", .arr ((validate_errors l).map .str)),
                        ("is_valid", .bool (validate_errors l).isEmpty)]) :=
  ⟨fun _ _ hab => hab ▸ rfl, validate_lookup_validation⟩

/-- Witness for C9 at the empty mapping. -/
theorem claim_C9_witness :
    validate .null = validate .null
    ∧ jGet scenario_a_output "validation"
        = some (.obj [("errors", .arr ((validate_errors []).map .str)),
                      ("is_valid", .bool (validate_errors []).isEmpty)]) :=
  ⟨claim_C9.1 .null .null rfl, claim_C9.2 [] scenario_a_output rfl⟩

/-- Claim C10 (confirmed): a boolean `confidence_score` passes the
numeric check (`bool` is a subclass of `int` in Python, and both `True`
and `False` lie in `[0.0, 1.0]`), so it is passed through unchanged, the
confidence-check error component is empty, and the full error list is
the concatenation of the other five components only. -/
theorem claim_C10 (l : List (String × JValue)) (b : Bool) (r : JValue)
    (hc : lookupKey l "confidence_score" = some (.bool b))
    (h : validate (.obj l) = some r) :
    jGet r "confidence_score" = some (.bool b)
    ∧ errs_confidence_score l = []
    ∧ validate_errors l
        = errs_missing l ++ errs_overall_risk_level l
          ++ errs_hazards_by_category l ++ errs_risk_summary l
          ++ errs_urgent_actions l := by
  have hgd : pyGetD l "confidence_score" (.float 0) = .bool b := by
    simp [pyGetD, hc]
  have hcond : (isNumberPy (pyGetD l "confidence_score" (.float 0))
      && decide (0 ≤ numVal (pyGetD l "confidence_score" (.float 0)))
      && decide (numVal (pyGetD l "confidence_score" (.float 0)) ≤ 1)) = true := by
    rw [hgd]
    cases b <;> decide
  have hcs : errs_confidence_score l = [] := by
    unfold errs_confidence_score
    rw [hgd]
    cases b <;> rfl
  refine ⟨?_, hcs, ?_⟩
  · rw [validate_lookup_cs l r h, if_pos hcond, hgd]
  · unfold validate_errors
    rw [hcs]
    simp

/-- Witness for C10 at `{"confidence_score": true}`. -/
theorem claim_C10_witness :
    jGet (.obj [("confidence_score", .bool true),
        ("overall_risk_level", .str "unknown"),
        ("hazards_by_category",
          .obj [("flying_objects", .arr []), ("structural_damage", .arr []),
                ("elevated_objects", .arr []), ("tree_hazards", .arr [])]),
        ("risk_summary",
          .obj [("critical_count", .int 0), ("high_count", .int 0),
                ("medium_count", .int 0), ("low_count", .int 0),
                ("total_hazards", .int 0)]),
        ("urgent_actions", .arr []),
        ("summary", .str "Analysis incomplete"),
        ("validation",
          .obj [("errors",
                  .arr [.str "Missing required field: overall_risk_level",
                        .str "Missing required field: hazards_by_category",
                        .str "Missing required field: risk_summary",
                        .str "Missing required field: urgent_actions",
                        .str "Missing required field: summary"]),
                ("is_valid", .bool false)])])
      "confidence_score" = some (.bool true)
    ∧ errs_confidence_score [("confidence_score", .bool true)] = []
    ∧ validate_errors [("confidence_score", .bool true)]
        = errs_missing [("confidence_score", .bool true)]
          ++ errs_overall_risk_level [("confidence_score", .bool true)]
          ++ errs_hazards_by_category [("confidence_score", .bool true)]
          ++ errs_risk_summary [("confidence_score", .bool true)]
          ++ errs_urgent_actions [("confidence_score", .bool true)] :=
  claim_C10 [("confidence_score", .bool true)] true _ rfl rfl

end Claims
